import Mathlib

set_option maxRecDepth 8192

/-!
Verification of the gridio TextGrid library (`src/textgrid/src/*.rs`).

Modelling conventions for the shallow embedding:
* Rust `String`/`&str` values are modelled as `Str := List Char`.
* Rust `f64` time values are modelled as `ℚ`; the comparisons performed by
  the library (`<`, `<=`, subtraction against the `1e-6` epsilon) are exact
  on all inputs appearing in the claims, so the rational model is faithful
  to the order behaviour of the floating-point code.
* Fallible code (Rust `panic!`, `unwrap` on `None`/out-of-bounds indexing)
  is modelled with `Option`; `std::io::Result` is modelled with `Except`.
* The opportunistic parallel helpers `fast_map`/`fast_enumerate_map`/
  `fast_move_map` of `utils.rs` both branch to a plain map over the input
  collection (sequential or parallel with identical results), so they are
  modelled as `List.map`.
-/

/-! ### Characters and strings (`&str` model) -/

abbrev Str := List Char

def str (s : String) : Str := s.toList

/-- ASCII whitespace, the fragment of Rust `char::is_whitespace` relevant to
TextGrid content. -/
def isWS (c : Char) : Bool := c = ' ' || c = '\t' || c = '\r' || c = '\n'

/-- Rust `str::trim_start`. -/
def trimStart (s : Str) : Str := s.dropWhile isWS

/-- Rust `str::trim_end`. -/
def trimEnd (s : Str) : Str := (s.reverse.dropWhile isWS).reverse

/-- Rust `str::trim`. -/
def trim (s : Str) : Str := trimEnd (trimStart s)

/-- Rust `str::trim_matches(c)`: strip every copy of `c` from both ends. -/
def trimMatches (c : Char) (s : Str) : Str :=
  ((s.dropWhile (· = c)).reverse.dropWhile (· = c)).reverse

/-- Rust `s.splitn(2, c)` packaged as: the parts before and after the first
occurrence of `c`, or `none` when `c` does not occur (one part). -/
def splitFirst (c : Char) : Str → Option (Str × Str)
  | [] => none
  | x :: xs =>
    if x = c then some ([], xs)
    else (splitFirst c xs).map (fun p => (x :: p.1, p.2))

/-- Split on a separator character, keeping empty segments (Rust `str::split`). -/
def splitOnChar (c : Char) : Str → List Str
  | [] => [[]]
  | x :: xs =>
    match splitOnChar c xs with
    | [] => [[]]
    | l :: ls => if x = c then [] :: l :: ls else (x :: l) :: ls

def stripTrailingCR (s : Str) : Str :=
  if s.getLast? = some '\r' then s.dropLast else s

/-- Rust `str::lines`: split at `'\n'`, drop the final empty segment produced
by a trailing newline, and strip one `'\r'` from the end of each line. -/
def rustLines (s : Str) : List Str :=
  let parts := splitOnChar '\n' s
  let parts := if parts.getLast? = some [] then parts.dropLast else parts
  parts.map stripTrailingCR

/-- Rust `label.replace('"', "\\\"")`: escape each double quote. -/
def escapeQuotes (s : Str) : Str :=
  s.flatMap (fun c => if c = '"' then ['\\', '"'] else [c])

/-! ### Decimal digits and numeric tokens -/

def digitChar (d : ℕ) : Char :=
  match d with
  | 0 => '0'
  | 1 => '1'
  | 2 => '2'
  | 3 => '3'
  | 4 => '4'
  | 5 => '5'
  | 6 => '6'
  | 7 => '7'
  | 8 => '8'
  | _ => '9'

def digitVal? (c : Char) : Option ℕ :=
  match c with
  | '0' => some 0
  | '1' => some 1
  | '2' => some 2
  | '3' => some 3
  | '4' => some (3 + 1)
  | '5' => some 5
  | '6' => some 6
  | '7' => some 7
  | '8' => some 8
  | '9' => some 9
  | _ => none

def isDigitCh (c : Char) : Bool := (digitVal? c).isSome

def natToStr (n : ℕ) : Str :=
  if n = 0 then ['0'] else ((Nat.digits 10 n).map digitChar).reverse

def intToStr (i : ℤ) : Str :=
  if i < 0 then '-' :: natToStr i.natAbs else natToStr i.natAbs

def digitsValAux : ℕ → Str → Option ℕ
  | acc, [] => some acc
  | acc, c :: cs =>
    match digitVal? c with
    | some d => digitsValAux (acc * 10 + d) cs
    | none => none

/-- Parse a nonempty all-digit string (the output grammar of `natToStr`). -/
def parseDigits? : Str → Option ℕ
  | [] => none
  | c :: cs => digitsValAux 0 (c :: cs)

/-- Injective decimal/fraction rendering of a rational time value.  Models
Rust's `f64` `Display`, whose output is guaranteed to round-trip through
`str::parse::<f64>`; the model keeps that round-trip property exactly. -/
def numToStr (q : ℚ) : Str :=
  if q.den = 1 then intToStr q.num
  else intToStr q.num ++ '/' :: natToStr q.den

def parseUnsigned? (s : Str) : Option ℚ :=
  match splitFirst '/' s with
  | none => (parseDigits? s).map (fun n => (n : ℚ))
  | some (a, b) => do
    let n ← parseDigits? a
    let d ← parseDigits? b
    if d = 0 then none else some ((n : ℚ) / (d : ℚ))

/-- Model of Rust `str::parse::<f64>` restricted to the grammar produced by
`numToStr` (sign, digits, optional fraction part); every other string fails,
matching the behaviour the parsers rely on (`unwrap_or(0.0)`). -/
def strToNum? (s : Str) : Option ℚ :=
  match s with
  | [] => none
  | c :: rest => if c = '-' then (parseUnsigned? rest).map Neg.neg
                 else parseUnsigned? (c :: rest)

/-- `parser_long.rs` / `parser_short.rs` `parse_float`:
`s.parse().unwrap_or(0.0)` (both files define the identical function). -/
def parse_float (s : Str) : ℚ := (strToNum? s).getD 0

/-- `parser_long.rs` / `parser_short.rs` `parse_uint`: `s.parse().unwrap_or(0)`. -/
def parse_uint (s : Str) : ℕ := (parseDigits? s).getD 0

/-- `parser_long.rs` / `parser_short.rs` `parse_str`: strip surrounding
quote characters. -/
def parse_str (s : Str) : Str := trimMatches '"' s

/-! ### Data model (`textgrid.rs`) -/

def TIME_EPSILON : ℚ := 1/1000000

structure Item where
  tmin : ℚ
  tmax : ℚ
  label : Str
deriving DecidableEq

structure Tier where
  name : Str
  size : ℕ
  items : List Item
  interval_tier : Bool
  tmin : ℚ
  tmax : ℚ
deriving DecidableEq

structure TextGrid where
  tmin : ℚ
  tmax : ℚ
  size : ℕ
  name : Str
  tiers : List Tier
deriving DecidableEq

/-- `Item::new`. -/
def Item.new : Item := { tmin := 0, tmax := 0, label := [] }

/-- `Tier::new`. -/
def Tier.new : Tier :=
  { name := [], size := 0, items := [], interval_tier := true, tmin := 0, tmax := 0 }

/-- `TextGrid::new`. -/
def TextGrid.new : TextGrid :=
  { tmin := 0, tmax := 0, size := 0, name := [], tiers := [] }

/-- `Tier::add_empty_item`. -/
def Tier.add_empty_item (t : Tier) : Tier := { t with items := t.items ++ [Item.new] }

/-- `TextGrid::add_empty_tier`. -/
def TextGrid.add_empty_tier (tg : TextGrid) : TextGrid :=
  { tg with tiers := tg.tiers ++ [Tier.new] }

/-- Entity locations appearing in the validator's error messages. -/
inductive VLoc
  | textgrid
  | tier (name : Str)
  | item (idx : ℕ) (tierName : Str)
deriving DecidableEq

/-- The distinct `InvalidData` errors produced by `textgrid.rs` (`data_error`
messages, keyed by which check failed and where). -/
inductive VErr
  | tierSizeMismatch
  | tgSizeMismatch
  | nonNegativeBounds (loc : VLoc)
  | minNotLessThanMax (loc : VLoc)
  | pointTminTmaxMismatch (idx : ℕ) (tierName : Str)
  | itemOverlap (i j : ℕ) (tierName : Str)
deriving DecidableEq

/-- `assert_valid_time_bounds` of `textgrid.rs`. -/
def assert_valid_time_bounds (tmin tmax : ℚ) (loc : VLoc) : Except VErr Unit :=
  if tmin < 0 ∨ tmax ≤ 0 then Except.error (VErr.nonNegativeBounds loc)
  else if tmax - tmin ≤ TIME_EPSILON then Except.error (VErr.minNotLessThanMax loc)
  else Except.ok ()

/-- The per-item check in the body of `Tier::assert_valid`'s loop. -/
def itemCheck (t : Tier) (idx : ℕ) (item : Item) : Except VErr Unit :=
  if t.interval_tier then
    assert_valid_time_bounds item.tmin item.tmax (VLoc.item idx t.name)
  else if |item.tmin - item.tmax| > TIME_EPSILON then
    Except.error (VErr.pointTminTmaxMismatch idx t.name)
  else Except.ok ()

/-- The `item_idx + 1 < len` overlap check in `Tier::assert_valid`'s loop
(note: performed for every tier kind, interval or point). -/
def overlapCheck (t : Tier) (idx : ℕ) (item : Item) : List Item → Except VErr Unit
  | [] => Except.ok ()
  | next :: _ =>
    if item.tmax - next.tmin > TIME_EPSILON then
      Except.error (VErr.itemOverlap idx (idx + 1) t.name)
    else Except.ok ()

/-- The indexed loop of `Tier::assert_valid` over `self.items`. -/
def Tier.checkItemsFrom (t : Tier) : ℕ → List Item → Except VErr Unit
  | _, [] => Except.ok ()
  | idx, item :: rest => do
    itemCheck t idx item
    overlapCheck t idx item rest
    t.checkItemsFrom (idx + 1) rest

/-- `Tier::assert_valid`. -/
def Tier.assert_valid (t : Tier) : Except VErr Unit :=
  if t.size ≠ t.items.length then Except.error VErr.tierSizeMismatch
  else do
    assert_valid_time_bounds t.tmin t.tmax (VLoc.tier t.name)
    t.checkItemsFrom 0 t.items

/-- The loop of `TextGrid::assert_valid` over `self.tiers`. -/
def TextGrid.checkTiers : List Tier → Except VErr Unit
  | [] => Except.ok ()
  | t :: rest => do
    t.assert_valid
    TextGrid.checkTiers rest

/-- `TextGrid::assert_valid`. -/
def TextGrid.assert_valid (tg : TextGrid) : Except VErr Unit :=
  if tg.size ≠ tg.tiers.length then Except.error VErr.tgSizeMismatch
  else do
    assert_valid_time_bounds tg.tmin tg.tmax VLoc.textgrid
    TextGrid.checkTiers tg.tiers

/-! ### Specification-level characterization of the validator -/

def timeBoundsOk (tmin tmax : ℚ) : Prop :=
  ¬(tmin < 0 ∨ tmax ≤ 0) ∧ tmax - tmin > TIME_EPSILON

/-- What the loop body of `Tier::assert_valid` requires of a single item. -/
def itemOk (t : Tier) (it : Item) : Prop :=
  (t.interval_tier = true → timeBoundsOk it.tmin it.tmax) ∧
  (t.interval_tier = false → |it.tmin - it.tmax| ≤ TIME_EPSILON)

/-- The pairwise condition checked between consecutive items. -/
def noOverlap (a b : Item) : Prop := a.tmax - b.tmin ≤ TIME_EPSILON

def Tier.validSpec (t : Tier) : Prop :=
  t.size = t.items.length ∧ timeBoundsOk t.tmin t.tmax ∧
  (∀ it ∈ t.items, itemOk t it) ∧ List.Chain' noOverlap t.items

def TextGrid.validSpec (tg : TextGrid) : Prop :=
  tg.size = tg.tiers.length ∧ timeBoundsOk tg.tmin tg.tmax ∧
  ∀ t ∈ tg.tiers, t.validSpec

instance timeBoundsOk.dec (a b : ℚ) : Decidable (timeBoundsOk a b) :=
  inferInstanceAs (Decidable (¬(a < 0 ∨ b ≤ 0) ∧ b - a > TIME_EPSILON))

instance itemOk.dec (t : Tier) (it : Item) : Decidable (itemOk t it) :=
  inferInstanceAs (Decidable
    ((t.interval_tier = true → timeBoundsOk it.tmin it.tmax) ∧
     (t.interval_tier = false → |it.tmin - it.tmax| ≤ TIME_EPSILON)))

instance noOverlap.dec (a b : Item) : Decidable (noOverlap a b) :=
  inferInstanceAs (Decidable (a.tmax - b.tmin ≤ TIME_EPSILON))

instance Tier.validSpec.dec (t : Tier) : Decidable t.validSpec :=
  inferInstanceAs (Decidable
    (t.size = t.items.length ∧ timeBoundsOk t.tmin t.tmax ∧
     (∀ it ∈ t.items, itemOk t it) ∧ List.Chain' noOverlap t.items))

instance TextGrid.validSpec.dec (tg : TextGrid) : Decidable tg.validSpec :=
  inferInstanceAs (Decidable
    (tg.size = tg.tiers.length ∧ timeBoundsOk tg.tmin tg.tmax ∧
     ∀ t ∈ tg.tiers, t.validSpec))

instance exceptDecEq {ε α : Type} [DecidableEq ε] [DecidableEq α] :
    DecidableEq (Except ε α)
  | Except.error e, Except.error f =>
    if h : e = f then isTrue (by rw [h])
    else isFalse (fun hc => h (Except.error.inj hc))
  | Except.error _, Except.ok _ => isFalse (fun hc => Except.noConfusion hc)
  | Except.ok _, Except.error _ => isFalse (fun hc => Except.noConfusion hc)
  | Except.ok a, Except.ok b =>
    if h : a = b then isTrue (by rw [h])
    else isFalse (fun hc => h (Except.ok.inj hc))

/-! ### Converter (`converter.rs`) -/

/-- `get_extreme`: max/min of the mapped values of a nonempty list, `none` on
an empty one.  (The Rust code folds `f64::max`/`f64::min` from the sentinel
`f64::MIN`/`f64::MAX`; on a nonempty list that equals folding from the first
mapped value, which is how the unbounded rational model renders it.) -/
def get_extreme {α : Type} (items : List α) (key : α → ℚ) (find_max : Bool) :
    Option ℚ :=
  match items.map key with
  | [] => none
  | x :: xs => some (if find_max then xs.foldl max x else xs.foldl min x)

/-- `get_optional_extreme`. -/
def get_optional_extreme {α : Type} (default : Option ℚ) (items : List α)
    (key : α → ℚ) (find_max : Bool) : ℚ :=
  match default with
  | some val => val
  | none => (get_extreme items key find_max).getD 0

/-- `make_tier`. -/
def make_tier (items : List Item) (tier_name : Str) (is_interval : Bool)
    (tmin tmax : Option ℚ) : Tier :=
  { name := tier_name
    interval_tier := is_interval
    tmin := get_optional_extreme tmin items (fun it => it.tmin) false
    tmax := get_optional_extreme tmax items (fun it => it.tmax) true
    size := items.length
    items := items }

/-- The converter's `io::Error` kinds: `InvalidInput` from the length check of
`from_vectors`, `InvalidData` forwarded from `assert_valid`. -/
inductive CErr
  | invalidInput
  | validation (e : VErr)
deriving DecidableEq

/-- `make_textgrid` (constructs, then unconditionally validates). -/
def make_textgrid (tiers : List Tier) (name : Option Str) (tmin tmax : Option ℚ) :
    Except CErr TextGrid :=
  let tgt : TextGrid :=
    { name := name.getD (str "ConvertedTextGrid")
      tmin := get_optional_extreme tmin tiers (fun t => t.tmin) false
      tmax := get_optional_extreme tmax tiers (fun t => t.tmax) true
      size := tiers.length
      tiers := tiers }
  match tgt.assert_valid with
  | Except.ok _ => Except.ok tgt
  | Except.error e => Except.error (CErr.validation e)

/-- `TextGrid::to_data` (`fast_map` over tiers/items is a plain map). -/
def TextGrid.to_data (tg : TextGrid) :
    ℚ × ℚ × List (Str × Bool × List (ℚ × ℚ × Str)) :=
  (tg.tmin, tg.tmax,
    tg.tiers.map (fun tier =>
      (tier.name, tier.interval_tier,
        tier.items.map (fun item => (item.tmin, item.tmax, item.label)))))

/-- The item-triple conversion closure of `from_data` (`fast_move_map`'s
`map_fun`). -/
def dataItem (x : ℚ × ℚ × Str) : Item := { tmin := x.1, tmax := x.2.1, label := x.2.2 }

/-- `TextGrid::from_data`: the per-tier loop that converts item triples,
skips (`continue`) tiers whose item vector is empty, and pushes a
`make_tier` result for the rest. -/
def from_data_tiers (data : List (Str × Bool × List (ℚ × ℚ × Str)))
    (tmin tmax : Option ℚ) : List Tier :=
  match data with
  | [] => []
  | d :: rest =>
    let items := d.2.2.map dataItem
    if items.isEmpty then from_data_tiers rest tmin tmax
    else make_tier items d.1 d.2.1 tmin tmax :: from_data_tiers rest tmin tmax

/-- `TextGrid::from_data`. -/
def TextGrid.from_data (data : List (Str × Bool × List (ℚ × ℚ × Str)))
    (name : Option Str) (tmin tmax : Option ℚ) : Except CErr TextGrid :=
  make_textgrid (from_data_tiers data tmin tmax) name tmin tmax

/-- `TextGrid::to_vectors`: the nested push loop over tiers and items,
rendered as five flattened projections. -/
def TextGrid.to_vectors (tg : TextGrid) :
    List ℚ × List ℚ × List Str × List Str × List Bool :=
  (tg.tiers.flatMap (fun t => t.items.map (fun it => it.tmin)),
   tg.tiers.flatMap (fun t => t.items.map (fun it => it.tmax)),
   tg.tiers.flatMap (fun t => t.items.map (fun it => it.label)),
   tg.tiers.flatMap (fun t => t.items.map (fun _ => t.name)),
   tg.tiers.flatMap (fun t => t.items.map (fun _ => t.interval_tier)))

/-- Association-list lookup, modelling `HashMap::get`/`contains_key` keyed by
tier name. -/
def alLookup {β : Type} : List (Str × β) → Str → Option β
  | [], _ => none
  | (k, v) :: rest, key => if k = key then some v else alLookup rest key

/-- `tier_map.get_mut(tier_name).unwrap().0.push(item)`. -/
def alPush : List (Str × (List Item × Bool)) → Str → Item →
    List (Str × (List Item × Bool))
  | [], _, _ => []
  | (k, v) :: rest, key, it =>
    if k = key then (k, (v.1 ++ [it], v.2)) :: rest
    else (k, v) :: alPush rest key it

/-- One flat-input entry: `(tmin, tmax, label, tier_name, is_interval)`. -/
abbrev FlatEntry := ℚ × ℚ × Str × Str × Bool

/-- The `tier_names[i]` component of an entry. -/
def entryName (e : FlatEntry) : Str := e.2.2.2.1

/-- The `is_intervals[i]` component of an entry. -/
def entryFlag (e : FlatEntry) : Bool := e.2.2.2.2

/-- The `Item` built from `tmins[i]`, `tmaxs[i]`, `labels[i]`. -/
def entryItem (e : FlatEntry) : Item := { tmin := e.1, tmax := e.2.1, label := e.2.2.1 }

/-- The indexed loop of `from_vectors` over the five equal-length vectors,
carrying `tier_name_order` and the tier map. -/
def from_vectors_loop : List FlatEntry → List Str →
    List (Str × (List Item × Bool)) → List Str × List (Str × (List Item × Bool))
  | [], order, m => (order, m)
  | e :: rest, order, m =>
    match alLookup m (entryName e) with
    | none => from_vectors_loop rest (order ++ [entryName e])
        (m ++ [(entryName e, ([entryItem e], entryFlag e))])
    | some _ => from_vectors_loop rest order (alPush m (entryName e) (entryItem e))

/-- The `for i in 0..tmins.len()` access pattern over the five vectors. -/
def zip5 : List ℚ → List ℚ → List Str → List Str → List Bool → List FlatEntry
  | a :: ra, b :: rb, c :: rc, d :: rd, e :: re =>
    (a, b, c, d, e) :: zip5 ra rb rc rd re
  | _, _, _, _, _ => []

/-- The comparator `a.tmin.partial_cmp(&b.tmin)` as a sort key (total on the
rational model; its `unwrap` can only panic for IEEE NaN, which ℚ has no
counterpart of). -/
def tminLe (a b : Item) : Bool := decide (a.tmin ≤ b.tmin)

/-- `TextGrid::from_vectors`.  `remove(&tier_name).unwrap()` is rendered as a
lookup (names in `tier_name_order` are distinct and all present). -/
def TextGrid.from_vectors (tmins tmaxs : List ℚ) (labels tier_names : List Str)
    (is_intervals : List Bool) (tmin tmax : Option ℚ) (name : Option Str) :
    Except CErr TextGrid :=
  if tmins.length ≠ tmaxs.length ∨ tmins.length ≠ labels.length ∨
     tmins.length ≠ tier_names.length ∨ tmins.length ≠ is_intervals.length then
    Except.error CErr.invalidInput
  else
    let om := from_vectors_loop (zip5 tmins tmaxs labels tier_names is_intervals) [] []
    let tiers := om.1.filterMap (fun tname =>
      (alLookup om.2 tname).map (fun p =>
        make_tier (p.1.mergeSort tminLe) tname p.2 tmin tmax))
    make_textgrid tiers name tmin tmax

/-! ### Long-format serializer (`writer.rs`) -/

def CRLF : Str := ['\r', '\n']

/-- The per-item block emitted inside `Tier::to_long_textgrid_string`
(`fast_enumerate_map`'s closure; `index` is 0-based, printed 1-based). -/
def itemLongStr (interval : Bool) (index : ℕ) (it : Item) : Str :=
  if interval then
    str "        intervals [" ++ natToStr (index + 1) ++ str "]:" ++ CRLF ++
    str "            xmin = " ++ numToStr it.tmin ++ str " " ++ CRLF ++
    str "            xmax = " ++ numToStr it.tmax ++ str " " ++ CRLF ++
    str "            text = \"" ++ escapeQuotes it.label ++ str "\" " ++ CRLF
  else
    str "        points [" ++ natToStr (index + 1) ++ str "]:" ++ CRLF ++
    str "            number = " ++ numToStr it.tmin ++ str " " ++ CRLF ++
    str "            mark = \"" ++ escapeQuotes it.label ++ str "\" " ++ CRLF

/-- `Tier::to_long_textgrid_string`. -/
def Tier.to_long_textgrid_string (t : Tier) (index : ℕ) : Str :=
  str "    item [" ++ natToStr (index + 1) ++ str "]:" ++ CRLF ++
  str "        class = \"" ++
    (if t.interval_tier then str "IntervalTier" else str "TextTier") ++ str "\" " ++ CRLF ++
  str "        name = \"" ++ escapeQuotes t.name ++ str "\" " ++ CRLF ++
  str "        xmin = " ++ numToStr t.tmin ++ str " " ++ CRLF ++
  str "        xmax = " ++ numToStr t.tmax ++ str " " ++ CRLF ++
  str "        " ++ (if t.interval_tier then str "intervals" else str "points") ++
    str ": size = " ++ natToStr t.items.length ++ str " " ++ CRLF ++
  (t.items.enum.map (fun p => itemLongStr t.interval_tier p.1 p.2)).flatten

/-- `TextGrid::to_long_textgrid_string`. -/
def TextGrid.to_long_textgrid_string (tg : TextGrid) : Str :=
  str "File type = \"ooTextFile\"" ++ CRLF ++
  str "Object class = \"TextGrid\"" ++ CRLF ++ CRLF ++
  str "xmin = " ++ numToStr tg.tmin ++ str " " ++ CRLF ++
  str "xmax = " ++ numToStr tg.tmax ++ str " " ++ CRLF ++
  str "tiers? " ++ (if tg.tiers.length > 0 then str "<exists>" else str "<absent>") ++
    str " " ++ CRLF ++
  str "size = " ++ natToStr tg.tiers.length ++ str " " ++ CRLF ++
  str "item []: " ++ CRLF ++
  (tg.tiers.enum.map (fun p => p.2.to_long_textgrid_string p.1)).flatten

/-! ### Long-format parser (`parser_long.rs`) -/

/-- `parser_long.rs` `State`. -/
inductive PState
  | header
  | item
  | tier
  | tierList
deriving DecidableEq

/-- `parse_kv`: split at the first `'='`, trim both sides. -/
def parse_kv (line : Str) : Option (Str × Str) :=
  match splitFirst '=' line with
  | none => none
  | some (k, v) => some (trim k, trim v)

/-- `parse_item_kv`. -/
def parse_item_kv (line : Str) (item : Item) : Item :=
  match parse_kv line with
  | some (key, value) =>
    if key = str "xmin" then { item with tmin := parse_float value }
    else if key = str "xmax" then { item with tmax := parse_float value }
    else if key = str "text" then { item with label := parse_str value }
    else if key = str "number" then
      { item with tmin := parse_float value, tmax := parse_float value }
    else if key = str "mark" then { item with label := parse_str value }
    else item
  | none => item

/-- `parse_tier_kv`; `none` models the `panic!("Unknown tier class")`. -/
def parse_tier_kv (line : Str) (tier : Tier) : Option Tier :=
  match parse_kv line with
  | some (key, value) =>
    if key = str "class" then
      if trimMatches '"' value = str "IntervalTier" then
        some { tier with interval_tier := true }
      else if trimMatches '"' value = str "TextTier" then
        some { tier with interval_tier := false }
      else none
    else if key = str "name" then some { tier with name := parse_str value }
    else if key = str "intervals: size" then some { tier with size := parse_uint value }
    else if key = str "points: size" then some { tier with size := parse_uint value }
    else if key = str "xmin" then some { tier with tmin := parse_float value }
    else if key = str "xmax" then some { tier with tmax := parse_float value }
    else some tier
  | none => some tier

/-- `parse_tg_kv`. -/
def parse_tg_kv (line : Str) (tg : TextGrid) : TextGrid :=
  match parse_kv line with
  | some (key, value) =>
    if key = str "xmin" then { tg with tmin := parse_float value }
    else if key = str "xmax" then { tg with tmax := parse_float value }
    else if key = str "size" then { tg with size := parse_uint value }
    else tg
  | none => tg

/-- `tg.tiers.last_mut().unwrap()` followed by a fallible mutation. -/
def withLastTier (tg : TextGrid) (f : Tier → Option Tier) : Option TextGrid :=
  match tg.tiers.getLast? with
  | none => none
  | some t => (f t).map (fun t2 => { tg with tiers := tg.tiers.dropLast ++ [t2] })

/-- `tg.tiers.last_mut().unwrap().items.last_mut().unwrap()` with a mutation. -/
def withLastItemOfLastTier (tg : TextGrid) (f : Item → Item) : Option TextGrid :=
  withLastTier tg (fun t =>
    match t.items.getLast? with
    | none => none
    | some it => some { t with items := t.items.dropLast ++ [f it] })

/-- The body of `read_from_file_long`'s `for line in content.lines()` loop
(the line is already trimmed by the caller). -/
def stepLong (st : PState × TextGrid) (line : Str) : Option (PState × TextGrid) :=
  if (str "item []").isPrefixOf line then some (PState.tierList, st.2)
  else if (str "item [").isPrefixOf line then
    some (PState.tier, st.2.add_empty_tier)
  else if (str "intervals [").isPrefixOf line ∨ (str "points [").isPrefixOf line then
    (withLastTier st.2 (fun t => some t.add_empty_item)).map
      (fun tg => (PState.item, tg))
  else
    match st.1 with
    | PState.header => some (PState.header, parse_tg_kv line st.2)
    | PState.tier =>
      (withLastTier st.2 (parse_tier_kv line)).map (fun tg => (PState.tier, tg))
    | PState.item =>
      (withLastItemOfLastTier st.2 (parse_item_kv line)).map
        (fun tg => (PState.item, tg))
    | PState.tierList => some (PState.tierList, st.2)

/-- The state-machine pass of `read_from_file_long` over the trimmed lines. -/
def read_long_lines (lines : List Str) : Option TextGrid :=
  ((lines.map trim).foldlM stepLong (PState.header, TextGrid.new)).map
    (fun p => p.2)

/-- `read_from_file_long`, abstracted over the file content and the filename
stem (the source sets `tg.name` from the path before the loop; the loop never
writes `tg.name`, so setting it afterwards is equivalent). -/
def read_from_file_long (content : Str) (stem : Str) (strict : Bool) :
    Option (Except VErr TextGrid) :=
  (read_long_lines (rustLines content)).map (fun tg0 =>
    let tg := { tg0 with name := stem }
    if strict then
      match tg.assert_valid with
      | Except.ok _ => Except.ok tg
      | Except.error e => Except.error e
    else Except.ok tg)

/-! ### Short-format parser (`parser_short.rs`) -/

/-- The `for _ in 0..tier.size` item loop of the short parser's `parse_tier`;
`lines.get?` out of bounds models the panicking `lines[i]` indexing. -/
def shortItemsLoop (interval : Bool) (lines : List Str) :
    ℕ → ℕ → Option (List Item × ℕ)
  | 0, cursor => some ([], cursor)
  | n + 1, cursor =>
    if interval then do
      let l0 ← lines.get? cursor
      let l1 ← lines.get? (cursor + 1)
      let l2 ← lines.get? (cursor + 2)
      let item : Item :=
        { tmin := parse_float l0, tmax := parse_float l1, label := parse_str l2 }
      let rest ← shortItemsLoop interval lines n (cursor + 3)
      some (item :: rest.1, rest.2)
    else do
      let l0 ← lines.get? cursor
      let l1 ← lines.get? (cursor + 1)
      let item : Item :=
        { tmin := parse_float l0, tmax := parse_float l0, label := parse_str l1 }
      let rest ← shortItemsLoop interval lines n (cursor + 2)
      some (item :: rest.1, rest.2)

/-- `parser_short.rs` `parse_tier`; `none` models the class `panic!` and the
out-of-bounds panics. -/
def parse_tier (lines : List Str) (start_index : ℕ) : Option (Tier × ℕ) := do
  let l0 ← lines.get? start_index
  let interval ←
    if trimMatches '"' l0 = str "IntervalTier" then some true
    else if trimMatches '"' l0 = str "TextTier" then some false
    else none
  let l1 ← lines.get? (start_index + 1)
  let l2 ← lines.get? (start_index + 2)
  let l3 ← lines.get? (start_index + 3)
  let l4 ← lines.get? (start_index + 4)
  let size := parse_uint l4
  let res ← shortItemsLoop interval lines size (start_index + 5)
  some ({ name := parse_str l1, size := size, items := res.1,
          interval_tier := interval, tmin := parse_float l2,
          tmax := parse_float l3 }, res.2)

/-- The `for _ in 0..tg.size` tier loop of `read_from_file_short`. -/
def shortTiersLoop (lines : List Str) : ℕ → ℕ → Option (List Tier × ℕ)
  | 0, cursor => some ([], cursor)
  | n + 1, cursor => do
    let tc ← parse_tier lines cursor
    let rest ← shortTiersLoop lines n tc.2
    some (tc.1 :: rest.1, rest.2)

/-- `read_from_file_short`, abstracted over file content and filename stem. -/
def read_from_file_short (content : Str) (stem : Str) (strict : Bool) :
    Option (Except VErr TextGrid) := do
  let lines := (rustLines content).map trim
  let l3 ← lines.get? 3
  let l4 ← lines.get? 4
  let l6 ← lines.get? 6
  let size := parse_uint l6
  let res ← shortTiersLoop lines size 7
  let tg : TextGrid :=
    { tmin := parse_float l3, tmax := parse_float l4, size := size,
      name := stem, tiers := res.1 }
  some (if strict then
          match tg.assert_valid with
          | Except.ok _ => Except.ok tg
          | Except.error e => Except.error e
        else Except.ok tg)

/-! ### Entry points (`lib.rs`) -/

/-- The file system as seen by the entry points: path contents, `none` for an
unreadable path. -/
def FileSys : Type := Str → Option Str

/-- `Path::file_stem`: the claims never depend on the resulting TextGrid
`name`, so the path-to-stem map is left as the identity on the path. -/
def fileStem (fname : Str) : Str := fname

/-- Error type of `read_from_file`: an io read error (propagated by `?` in
`auto` mode) or a validation error from strict parsing. -/
inductive RdErr
  | ioError
  | validation (e : VErr)
deriving DecidableEq

def liftV : Except VErr TextGrid → Except RdErr TextGrid
  | Except.ok tg => Except.ok tg
  | Except.error e => Except.error (RdErr.validation e)

/-- `read_from_file_long` called on a path: `read_to_string(fname).unwrap()`
panics (`none`) when the read fails. -/
def read_long_fs (fs : FileSys) (fname : Str) (strict : Bool) :
    Option (Except VErr TextGrid) :=
  match fs fname with
  | none => none
  | some content => read_from_file_long content (fileStem fname) strict

/-- `read_from_file_short` called on a path. -/
def read_short_fs (fs : FileSys) (fname : Str) (strict : Bool) :
    Option (Except VErr TextGrid) :=
  match fs fname with
  | none => none
  | some content => read_from_file_short content (fileStem fname) strict

/-- `lib.rs` `read_from_file`: dispatch on the `file_type` string; in `auto`
mode the read error is propagated as `Err` (the `?` operator), and format
detection looks for the literal `item []` in the content. -/
def read_from_file (fs : FileSys) (fname : Str) (strict : Bool)
    (file_type : Str) : Option (Except RdErr TextGrid) :=
  if file_type = str "long" then (read_long_fs fs fname strict).map liftV
  else if file_type = str "short" then (read_short_fs fs fname strict).map liftV
  else if file_type = str "auto" then
    match fs fname with
    | none => some (Except.error RdErr.ioError)
    | some content =>
      if (str "item []") <:+: content then (read_long_fs fs fname strict).map liftV
      else (read_short_fs fs fname strict).map liftV
  else none

/-- The nested (per-file) result type of `files_to_data`. -/
abbrev FileData := ℚ × ℚ × List (Str × Bool × List (ℚ × ℚ × Str))

/-- The closure mapped over file names by `files_to_data`: an `Err` result is
absorbed into the `(0.0, 0.0, vec![])` placeholder. -/
def file_to_data (fs : FileSys) (strict : Bool) (file_type : Str)
    (fname : Str) : Option FileData :=
  (read_from_file fs fname strict file_type).map (fun r =>
    match r with
    | Except.ok tg => tg.to_data
    | Except.error _ => (0, 0, []))

/-- `files_to_data` (`fast_map` over the file names; a panic in any closure
call aborts the whole batch, hence the `Option` on the outside). -/
def files_to_data (fs : FileSys) (fnames : List Str) (strict : Bool)
    (file_type : Str) : Option (List FileData) :=
  fnames.mapM (file_to_data fs strict file_type)

/-- The flat (per-file) result type of `files_to_vectors`. -/
abbrev FileVectors := List ℚ × List ℚ × List Str × List Str × List Bool

/-- The closure mapped over file names by `files_to_vectors`. -/
def file_to_vectors (fs : FileSys) (strict : Bool) (file_type : Str)
    (fname : Str) : Option FileVectors :=
  (read_from_file fs fname strict file_type).map (fun r =>
    match r with
    | Except.ok tg => tg.to_vectors
    | Except.error _ => ([], [], [], [], []))

/-- `files_to_vectors`. -/
def files_to_vectors (fs : FileSys) (fnames : List Str) (strict : Bool)
    (file_type : Str) : Option (List FileVectors) :=
  fnames.mapM (file_to_vectors fs strict file_type)

/-! Instance search does not find the nested list/product `DecidableEq`
instances on its own; provide them explicitly. -/

instance tierDataListDecEq : DecidableEq (List (Str × Bool × List (ℚ × ℚ × Str))) :=
  fun a b => List.hasDecEq a b

instance ratListDecEq : DecidableEq (List ℚ) :=
  fun a b => List.hasDecEq a b

instance strListDecEq : DecidableEq (List Str) :=
  fun a b => List.hasDecEq a b

instance fileDataDecEq : DecidableEq FileData := inferInstance

instance fileDataListDecEq : DecidableEq (List FileData) :=
  fun a b => List.hasDecEq a b

instance fileVectorsDecEq : DecidableEq FileVectors := inferInstance

instance fileVectorsListDecEq : DecidableEq (List FileVectors) :=
  fun a b => List.hasDecEq a b

/-! ### Concrete instances used by the claims -/

/-- The "words" interval tier of the spec's concrete scenario, parametrized by
its second item. -/
def wordsTier (second : Item) : Tier :=
  { name := str "words", size := 2,
    items := [{ tmin := 0, tmax := 1, label := str "hello" }, second],
    interval_tier := true, tmin := 0, tmax := 2 }

/-- The one-tier TextGrid of the spec's concrete scenario. -/
def wordsGrid (second : Item) : TextGrid :=
  { tmin := 0, tmax := 2, size := 1, name := str "demo", tiers := [wordsTier second] }

/-- A point tier whose items each satisfy `tmin = tmax` but whose consecutive
items are out of temporal order (5 before 1). -/
def disorderedPointTier : Tier :=
  { name := str "p", size := 2,
    items := [{ tmin := 5, tmax := 5, label := [] }, { tmin := 1, tmax := 1, label := [] }],
    interval_tier := false, tmin := 0, tmax := 10 }

/-- An interval tier whose single item has `tmax <= tmin` (2 to 1). -/
def badBoundsTier : Tier :=
  { name := str "bad", size := 1,
    items := [{ tmin := 2, tmax := 1, label := [] }],
    interval_tier := true, tmin := 0, tmax := 3 }

/-- A grid whose declared size (0) disagrees with its tier count (1) and which
also contains an interval item with `tmax <= tmin`. -/
def sizeAndBoundsGrid : TextGrid :=
  { tmin := 0, tmax := 3, size := 0, name := [], tiers := [badBoundsTier] }

/-- A valid-except-for-item-bounds grid around `badBoundsTier`. -/
def badBoundsGrid : TextGrid :=
  { tmin := 0, tmax := 3, size := 1, name := [], tiers := [badBoundsTier] }

/-- A tier with two consecutive interval items overlapping by 0.5. -/
def oTier : Tier :=
  { name := str "o", size := 2,
    items := [{ tmin := 0, tmax := 2, label := [] },
              { tmin := 3/2, tmax := 3, label := [] }],
    interval_tier := true, tmin := 0, tmax := 3 }

/-- A grid with two consecutive interval items overlapping by 0.5. -/
def overlapGrid : TextGrid :=
  { tmin := 0, tmax := 3, size := 1, name := [], tiers := [oTier] }

/-- A tier whose declared `size` (3) differs from the actual item count (1). -/
def sTier : Tier :=
  { name := str "s", size := 3,
    items := [{ tmin := 0, tmax := 3, label := [] }],
    interval_tier := true, tmin := 0, tmax := 3 }

/-- A grid whose only flaw is a tier `size` (3) differing from the actual
item count (1). -/
def sizeMismatchGrid : TextGrid :=
  { tmin := 0, tmax := 3, size := 1, name := [], tiers := [sTier] }

/-- A point tier like `disorderedPointTier` but with its items in temporal
order (1 before 5). -/
def orderedPointTier : Tier :=
  { name := str "q", size := 2,
    items := [{ tmin := 1, tmax := 1, label := [] }, { tmin := 5, tmax := 5, label := [] }],
    interval_tier := false, tmin := 0, tmax := 10 }

/-- Concrete `from_data` input: tier "a" with two items, tier "b" empty. -/
def c8Data : List (Str × Bool × List (ℚ × ℚ × Str)) :=
  [(str "a", true, [(0, 1, str "x"), (1, 2, str "y")]),
   (str "b", true, [])]

/-- The TextGrid that `from_data` builds from `c8Data`: tier "b" dropped,
tier "a" with bounds 0 and 2. -/
def c8Grid : TextGrid :=
  { tmin := 0, tmax := 2, size := 1, name := str "ConvertedTextGrid",
    tiers := [{ name := str "a", size := 2,
                items := [{ tmin := 0, tmax := 1, label := str "x" },
                          { tmin := 1, tmax := 2, label := str "y" }],
                interval_tier := true, tmin := 0, tmax := 2 }] }

/-! ### C7: flat-form reconstruction -/

/-- First-occurrence order of names: the names of the input in order, each
kept only at its first occurrence (relative to the already-seen list). -/
def dedupFirst : List Str → List Str → List Str
  | [], _ => []
  | n :: rest, seen =>
    if n ∈ seen then dedupFirst rest seen
    else n :: dedupFirst rest (seen ++ [n])

/-- The items carried by entries with the given tier name, in input order. -/
def itemsOfName (entries : List FlatEntry) (n : Str) : List Item :=
  (entries.filter (fun e => entryName e = n)).map entryItem

/-- The interval flag of the first entry with the given tier name. -/
def flagOfName (entries : List FlatEntry) (n : Str) : Bool :=
  match entries.find? (fun e => entryName e = n) with
  | some e => entryFlag e
  | none => false

/-- The TextGrid reconstructed from the interleaved flat input of the C7
witness: entries ("b",(2,3)), ("a",(0,1)), ("b",(1,2)). -/
def c7Grid : TextGrid :=
  { tmin := 0, tmax := 3, size := 2, name := str "ConvertedTextGrid",
    tiers := [
      { name := str "b", size := 2,
        items := [{ tmin := 1, tmax := 2, label := str "p" },
                  { tmin := 2, tmax := 3, label := str "q" }],
        interval_tier := true, tmin := 1, tmax := 3 },
      { name := str "a", size := 1,
        items := [{ tmin := 0, tmax := 1, label := str "r" }],
        interval_tier := true, tmin := 0, tmax := 1 }] }

/-! ### C9: tolerant numeric parsing -/

/-- A long-format file whose header time fields are unparseable tokens. -/
def garbageLongContent : Str :=
  str "File type = \"ooTextFile\"" ++ CRLF ++
  str "Object class = \"TextGrid\"" ++ CRLF ++ CRLF ++
  str "xmin = abc " ++ CRLF ++
  str "xmax = xyz " ++ CRLF ++
  str "tiers? <exists> " ++ CRLF ++
  str "size = 0 " ++ CRLF ++
  str "item []: " ++ CRLF

/-- A short-format file whose header time fields are unparseable tokens. -/
def garbageShortContent : Str :=
  str "File type = \"ooTextFile\"" ++ CRLF ++
  str "Object class = \"TextGrid\"" ++ CRLF ++ CRLF ++
  str "abc" ++ CRLF ++
  str "xyz" ++ CRLF ++
  str "<exists>" ++ CRLF ++
  str "0" ++ CRLF

/-- A minimal well-formed short-format file: bounds 0 and 5, no tiers. -/
def goodShortContent : Str :=
  str "File type = \"ooTextFile\"" ++ CRLF ++
  str "Object class = \"TextGrid\"" ++ CRLF ++ CRLF ++
  str "0" ++ CRLF ++
  str "5" ++ CRLF ++
  str "<exists>" ++ CRLF ++
  str "0" ++ CRLF

/-- A file system with a well-formed file "g", an empty (truncated) file "e"
whose short-format parse panics on out-of-bounds indexing, and no other
readable paths. -/
def c4fs : FileSys := fun fname =>
  if fname = str "g" then some goodShortContent
  else if fname = str "e" then some [] else none

/-! ### C1: long-format round trip — line structure -/

/-- Join lines with the CRLF terminator the writer appends to every line. -/
def joinCRLF (ls : List Str) : Str := (ls.map (fun l => l ++ CRLF)).flatten

/-- A string free of carriage returns and line feeds. -/
def noCRLF (s : Str) : Prop := ∀ c ∈ s, c ≠ '\r' ∧ c ≠ '\n'

/-- A tier name or item label that survives the long format unchanged: free
of the quote character (whose escaping the parser never undoes) and of line
terminators. -/
def cleanStr (s : Str) : Prop := ∀ c ∈ s, c ≠ '"' ∧ c ≠ '\r' ∧ c ≠ '\n'

/-- All names and labels of a TextGrid clean. -/
def TextGrid.cleanStrings (tg : TextGrid) : Prop :=
  ∀ t ∈ tg.tiers, cleanStr t.name ∧ ∀ it ∈ t.items, cleanStr it.label

/-- The header lines of `TextGrid::to_long_textgrid_string`. -/
def headerLines (tg : TextGrid) : List Str :=
  [str "File type = \"ooTextFile\"",
   str "Object class = \"TextGrid\"",
   [],
   str "xmin = " ++ numToStr tg.tmin ++ str " ",
   str "xmax = " ++ numToStr tg.tmax ++ str " ",
   str "tiers? " ++ (if tg.tiers.length > 0 then str "<exists>" else str "<absent>")
     ++ str " ",
   str "size = " ++ natToStr tg.tiers.length ++ str " ",
   str "item []: "]

/-- The lines of one item block. -/
def itemLines (interval : Bool) (index : ℕ) (it : Item) : List Str :=
  if interval then
    [str "        intervals [" ++ natToStr (index + 1) ++ str "]:",
     str "            xmin = " ++ numToStr it.tmin ++ str " ",
     str "            xmax = " ++ numToStr it.tmax ++ str " ",
     str "            text = \"" ++ escapeQuotes it.label ++ str "\" "]
  else
    [str "        points [" ++ natToStr (index + 1) ++ str "]:",
     str "            number = " ++ numToStr it.tmin ++ str " ",
     str "            mark = \"" ++ escapeQuotes it.label ++ str "\" "]

/-- The lines of one tier block. -/
def tierLines (t : Tier) (index : ℕ) : List Str :=
  [str "    item [" ++ natToStr (index + 1) ++ str "]:",
   str "        class = \""
     ++ (if t.interval_tier then str "IntervalTier" else str "TextTier")
     ++ str "\" ",
   str "        name = \"" ++ escapeQuotes t.name ++ str "\" ",
   str "        xmin = " ++ numToStr t.tmin ++ str " ",
   str "        xmax = " ++ numToStr t.tmax ++ str " ",
   str "        " ++ (if t.interval_tier then str "intervals" else str "points")
     ++ str ": size = " ++ natToStr t.items.length ++ str " "]
  ++ (t.items.enum.map (fun p => itemLines t.interval_tier p.1 p.2)).flatten

/-- All lines of the long serialization. -/
def longLines (tg : TextGrid) : List Str :=
  headerLines tg ++ (tg.tiers.enum.map (fun p => tierLines p.2 p.1)).flatten

instance noCRLF.dec (s : Str) : Decidable (noCRLF s) :=
  inferInstanceAs (Decidable (∀ c ∈ s, c ≠ '\r' ∧ c ≠ '\n'))

instance cleanStr.dec (s : Str) : Decidable (cleanStr s) :=
  inferInstanceAs (Decidable (∀ c ∈ s, c ≠ '"' ∧ c ≠ '\r' ∧ c ≠ '\n'))

/-- None of the four structural-marker prefixes matches the line. -/
def notMarker (line : Str) : Prop :=
  (str "item []").isPrefixOf line = false
  ∧ (str "item [").isPrefixOf line = false
  ∧ (str "intervals [").isPrefixOf line = false
  ∧ (str "points [").isPrefixOf line = false

/-- The item the long parser reconstructs from one serialized item block:
exact for interval tiers; for point tiers the `number` line sets both times
to the serialized `tmin`. -/
def reconItem (interval : Bool) (it : Item) : Item :=
  if interval then it else { tmin := it.tmin, tmax := it.tmin, label := it.label }

/-- The tier the long parser reconstructs from one serialized tier block. -/
def reconTier (t : Tier) : Tier :=
  { name := t.name, size := t.items.length,
    items := t.items.map (reconItem t.interval_tier),
    interval_tier := t.interval_tier, tmin := t.tmin, tmax := t.tmax }

/-- The state of the freshly created tier after its six header lines, before
any item block has been consumed. -/
def tierStage (t : Tier) : Tier :=
  { name := t.name, size := t.items.length, items := [],
    interval_tier := t.interval_tier, tmin := t.tmin, tmax := t.tmax }

/-- The TextGrid the long parser reconstructs from a full serialization
(before the caller substitutes the filename stem for the name). -/
def reconGrid0 (tg : TextGrid) : TextGrid :=
  { tmin := tg.tmin, tmax := tg.tmax, size := tg.tiers.length, name := [],
    tiers := tg.tiers.map reconTier }

instance cleanStrings.dec (tg : TextGrid) : Decidable tg.cleanStrings :=
  inferInstanceAs
    (Decidable (∀ t ∈ tg.tiers, cleanStr t.name ∧ ∀ it ∈ t.items, cleanStr it.label))

/-- A valid TextGrid whose single item label contains a double quote. -/
def tgQuoteTier : Tier :=
  { name := str "w", size := 1,
    items := [{ tmin := 0, tmax := 2, label := ['a', '"', 'b'] }],
    interval_tier := true, tmin := 0, tmax := 2 }

def tgQuote : TextGrid :=
  { tmin := 0, tmax := 2, size := 1, name := [], tiers := [tgQuoteTier] }

/-- What the long parser returns on `tgQuote`'s serialization: the label comes
back with the writer's escaping backslash kept, since the parser only strips
the outer quotes. -/
def tgQuoteParsedTier : Tier :=
  { name := str "w", size := 1,
    items := [{ tmin := 0, tmax := 2, label := ['a', '\\', '"', 'b'] }],
    interval_tier := true, tmin := 0, tmax := 2 }

def tgQuoteParsed : TextGrid :=
  { tmin := 0, tmax := 2, size := 1, name := str "tgQuote",
    tiers := [tgQuoteParsedTier] }

/-- A valid TextGrid with quote-free names and labels. -/
def c1Tier : Tier :=
  { name := str "w", size := 2,
    items := [{ tmin := 0, tmax := 1, label := str "ab" },
              { tmin := 1, tmax := 2, label := str "cd" }],
    interval_tier := true, tmin := 0, tmax := 2 }

def c1Grid : TextGrid :=
  { tmin := 0, tmax := 2, size := 1, name := [], tiers := [c1Tier] }

/-! ### Round-trip of the numeric token model -/

theorem digitVal_digitChar : ∀ d, d < 10 → digitVal? (digitChar d) = some d := by
  decide

theorem isDigitCh_digitChar : ∀ d, d < 10 → isDigitCh (digitChar d) = true := by
  decide

theorem natToStr_ne_nil (n : ℕ) : natToStr n ≠ [] := by
  unfold natToStr
  split
  · simp
  · next h =>
    simp only [ne_eq, List.reverse_eq_nil_iff, List.map_eq_nil_iff]
    exact Nat.digits_ne_nil_iff_ne_zero.mpr h

theorem natToStr_all_digits (n : ℕ) : ∀ c ∈ natToStr n, isDigitCh c = true := by
  intro c hc
  unfold natToStr at hc
  split at hc
  · simp at hc
    subst hc
    decide
  · simp only [List.mem_reverse, List.mem_map] at hc
    obtain ⟨d, hd, rfl⟩ := hc
    exact isDigitCh_digitChar d (Nat.digits_lt_base (by norm_num) hd)

theorem isDigitCh_spec (c : Char) (h : isDigitCh c = true) :
    c = '0' ∨ c = '1' ∨ c = '2' ∨ c = '3' ∨ c = '4' ∨
    c = '5' ∨ c = '6' ∨ c = '7' ∨ c = '8' ∨ c = '9' := by
  unfold isDigitCh digitVal? at h
  split at h <;> simp_all

theorem isDigitCh_ne (c : Char) (h : isDigitCh c = true) :
    c ≠ '-' ∧ c ≠ '/' ∧ c ≠ '=' ∧ c ≠ '"' ∧ isWS c = false ∧ c ≠ ']' := by
  rcases isDigitCh_spec c h with rfl | rfl | rfl | rfl | rfl | rfl | rfl | rfl | rfl | rfl <;>
    exact ⟨by decide, by decide, by decide, by decide, by decide, by decide⟩

theorem foldl_reverse_ofDigits (ds : List ℕ) (acc : ℕ) :
    ds.reverse.foldl (fun a d => a * 10 + d) acc
      = acc * 10 ^ ds.length + Nat.ofDigits 10 ds := by
  induction ds generalizing acc with
  | nil => simp
  | cons d tl ih =>
    simp only [List.reverse_cons, List.foldl_append, List.foldl_cons,
      List.foldl_nil, ih, Nat.ofDigits_cons, List.length_cons]
    ring

theorem digitsValAux_digits (ds : List ℕ) (acc : ℕ) (h : ∀ d ∈ ds, d < 10) :
    digitsValAux acc (ds.map digitChar)
      = some (ds.foldl (fun a d => a * 10 + d) acc) := by
  induction ds generalizing acc with
  | nil => rfl
  | cons d tl ih =>
    have hd : d < 10 := h d (by simp)
    simp only [List.map_cons, digitsValAux, digitVal_digitChar d hd]
    exact ih _ (fun x hx => h x (by simp [hx]))

theorem parseDigits_natToStr (n : ℕ) : parseDigits? (natToStr n) = some n := by
  unfold natToStr
  split
  · next h => subst h; decide
  · next h =>
    have hnil : Nat.digits 10 n ≠ [] := Nat.digits_ne_nil_iff_ne_zero.mpr h
    rw [← List.map_reverse]
    have hne : (Nat.digits 10 n).reverse.map digitChar ≠ [] := by
      simp [hnil]
    rw [parseDigits?.eq_def]
    split
    · next heq => exact absurd heq hne
    · next c cs heq =>
      rw [← heq,
        digitsValAux_digits _ _
          (fun d hd => Nat.digits_lt_base (by norm_num) (List.mem_reverse.mp hd))]
      rw [foldl_reverse_ofDigits]
      simp [Nat.ofDigits_digits]

theorem splitFirst_of_not_mem (c : Char) (s : Str) (h : c ∉ s) :
    splitFirst c s = none := by
  induction s with
  | nil => rfl
  | cons x xs ih =>
    simp only [List.mem_cons, not_or] at h
    simp [splitFirst, Ne.symm h.1, ih h.2]

theorem splitFirst_append (c : Char) (a b : Str) (h : c ∉ a) :
    splitFirst c (a ++ c :: b) = some (a, b) := by
  induction a with
  | nil => simp [splitFirst]
  | cons x xs ih =>
    simp only [List.mem_cons, not_or] at h
    simp [splitFirst, Ne.symm h.1, ih h.2]

theorem not_mem_natToStr_of_not_digit (c : Char) (n : ℕ) (h : isDigitCh c = false) :
    c ∉ natToStr n := by
  intro hc
  have := natToStr_all_digits n c hc
  rw [h] at this
  exact Bool.false_ne_true this

theorem strToNum_digits_head (a : ℕ) (rest : Str) :
    strToNum? (natToStr a ++ rest) = parseUnsigned? (natToStr a ++ rest) := by
  obtain ⟨c, tl, hcons⟩ := List.exists_cons_of_ne_nil (natToStr_ne_nil a)
  have hc : isDigitCh c = true := natToStr_all_digits a c (by rw [hcons]; simp)
  rw [hcons, List.cons_append, strToNum?.eq_def]
  simp only []
  rw [if_neg (isDigitCh_ne c hc).1, ← List.cons_append, ← hcons]

theorem num_cast_eq_self_of_den_one (q : ℚ) (hden : q.den = 1) : ((q.num : ℚ)) = q := by
  have := Rat.num_div_den q
  rw [hden] at this
  simpa using this

theorem parseUnsigned_natToStr (n : ℕ) : parseUnsigned? (natToStr n) = some ((n : ℚ)) := by
  unfold parseUnsigned?
  rw [splitFirst_of_not_mem _ _ (not_mem_natToStr_of_not_digit _ _ (by decide))]
  simp [parseDigits_natToStr]

theorem strToNum_natToStr (n : ℕ) : strToNum? (natToStr n) = some ((n : ℚ)) := by
  have h := strToNum_digits_head n []
  rw [List.append_nil] at h
  rw [h, parseUnsigned_natToStr]

theorem natAbs_cast_of_neg (i : ℤ) (h : i < 0) : ((i.natAbs : ℚ)) = -(i : ℚ) := by
  rw [Int.cast_natAbs, abs_of_neg h]
  push_cast
  ring

theorem natAbs_cast_of_nonneg (i : ℤ) (h : 0 ≤ i) : ((i.natAbs : ℚ)) = (i : ℚ) := by
  rw [Int.cast_natAbs, abs_of_nonneg h]

theorem strToNum_neg_head (rest : Str) :
    strToNum? ('-' :: rest) = (parseUnsigned? rest).map Neg.neg := by
  simp [strToNum?]

theorem strToNum_numToStr (q : ℚ) : strToNum? (numToStr q) = some q := by
  have hdnz : q.den ≠ 0 := (Rat.den_pos q).ne'
  unfold numToStr
  split
  · next hden =>
    unfold intToStr
    split
    · next hneg =>
      rw [strToNum_neg_head, parseUnsigned_natToStr]
      rw [Option.map_some']
      simp only [Option.some.injEq]
      rw [natAbs_cast_of_neg _ hneg, neg_neg, num_cast_eq_self_of_den_one q hden]
    · next hnneg =>
      rw [strToNum_natToStr]
      rw [← num_cast_eq_self_of_den_one q hden]
      congr 1
      exact natAbs_cast_of_nonneg _ (le_of_not_gt hnneg)
  · next hden =>
    have hps : parseUnsigned? (natToStr q.num.natAbs ++ '/' :: natToStr q.den)
        = some (((q.num.natAbs : ℚ)) / ((q.den : ℚ))) := by
      unfold parseUnsigned?
      rw [splitFirst_append _ _ _ (not_mem_natToStr_of_not_digit _ _ (by decide))]
      simp [parseDigits_natToStr, hdnz]
    unfold intToStr
    split
    · next hneg =>
      rw [List.cons_append, strToNum_neg_head, hps]
      rw [Option.map_some']
      simp only [Option.some.injEq]
      rw [natAbs_cast_of_neg _ hneg, neg_div, neg_neg, Rat.num_div_den]
    · next hnneg =>
      rw [strToNum_digits_head, hps]
      rw [natAbs_cast_of_nonneg _ (le_of_not_gt hnneg), Rat.num_div_den]

theorem except_seq_ok (e₁ : Except VErr Unit) (e₂ : Except VErr Unit) :
    ((do e₁; e₂ : Except VErr Unit) = Except.ok ()) ↔
      (e₁ = Except.ok () ∧ e₂ = Except.ok ()) := by
  cases e₁ <;> cases e₂ <;> simp [Bind.bind, Except.bind]

theorem assert_valid_time_bounds_ok_iff (a b : ℚ) (loc : VLoc) :
    assert_valid_time_bounds a b loc = Except.ok () ↔ timeBoundsOk a b := by
  unfold assert_valid_time_bounds timeBoundsOk
  split
  · next h => simp [h]
  · next h =>
    split
    · next h2 => simp [h, h2, not_lt.mpr h2]
    · next h2 => simp [h, lt_of_not_ge h2]

theorem itemCheck_ok_iff (t : Tier) (idx : ℕ) (it : Item) :
    itemCheck t idx it = Except.ok () ↔ itemOk t it := by
  unfold itemCheck itemOk
  cases hb : t.interval_tier with
  | true =>
    simp [assert_valid_time_bounds_ok_iff]
  | false =>
    simp only [Bool.false_eq_true, if_false]
    split
    · next h => simp [h, not_le.mpr h]
    · next h => simp [le_of_not_gt h]

theorem overlapCheck_ok_iff (t : Tier) (idx : ℕ) (it : Item) (rest : List Item) :
    overlapCheck t idx it rest = Except.ok () ↔
      (∀ nx, rest.head? = some nx → noOverlap it nx) := by
  cases rest with
  | nil => simp [overlapCheck]
  | cons nx tl =>
    simp only [overlapCheck, List.head?_cons, Option.some.injEq]
    split
    · next h =>
      constructor
      · intro hc
        exact absurd hc (by simp)
      · intro hall
        exact absurd (hall nx rfl) (by unfold noOverlap; exact not_le.mpr h)
    · next h =>
      constructor
      · intro _ x hx
        subst hx
        unfold noOverlap
        exact le_of_not_gt h
      · intro _
        rfl

theorem checkItemsFrom_ok_iff (t : Tier) (idx : ℕ) (its : List Item) :
    t.checkItemsFrom idx its = Except.ok () ↔
      (∀ it ∈ its, itemOk t it) ∧ List.Chain' noOverlap its := by
  induction its generalizing idx with
  | nil => simp [Tier.checkItemsFrom]
  | cons it rest ih =>
    unfold Tier.checkItemsFrom
    rw [show (do
          itemCheck t idx it
          overlapCheck t idx it rest
          t.checkItemsFrom (idx + 1) rest : Except VErr Unit)
        = (do
          itemCheck t idx it
          (do
            overlapCheck t idx it rest
            t.checkItemsFrom (idx + 1) rest) : Except VErr Unit) from rfl]
    rw [except_seq_ok, except_seq_ok, itemCheck_ok_iff, overlapCheck_ok_iff, ih]
    constructor
    · rintro ⟨h1, h2, h3, h4⟩
      refine ⟨?_, ?_⟩
      · intro x hx
        rcases List.mem_cons.mp hx with rfl | hx
        · exact h1
        · exact h3 x hx
      · rw [List.chain'_cons']
        exact ⟨h2, h4⟩
    · rintro ⟨h1, h2⟩
      rw [List.chain'_cons'] at h2
      exact ⟨h1 it (by simp), h2.1, fun x hx => h1 x (by simp [hx]), h2.2⟩

theorem tier_assert_valid_ok_iff (t : Tier) :
    t.assert_valid = Except.ok () ↔ t.validSpec := by
  unfold Tier.assert_valid Tier.validSpec
  split
  · next h => simp [h]
  · next h =>
    rw [not_ne_iff] at h
    rw [except_seq_ok, assert_valid_time_bounds_ok_iff, checkItemsFrom_ok_iff]
    simp [h, and_assoc]

theorem checkTiers_ok_iff (ts : List Tier) :
    TextGrid.checkTiers ts = Except.ok () ↔ ∀ t ∈ ts, t.validSpec := by
  induction ts with
  | nil => simp [TextGrid.checkTiers]
  | cons t rest ih =>
    unfold TextGrid.checkTiers
    rw [except_seq_ok, tier_assert_valid_ok_iff, ih]
    constructor
    · rintro ⟨h1, h2⟩ x hx
      rcases List.mem_cons.mp hx with rfl | hx
      · exact h1
      · exact h2 x hx
    · intro h
      exact ⟨h t (by simp), fun x hx => h x (by simp [hx])⟩

theorem textgrid_assert_valid_ok_iff (tg : TextGrid) :
    tg.assert_valid = Except.ok () ↔ tg.validSpec := by
  unfold TextGrid.assert_valid TextGrid.validSpec
  split
  · next h => simp [h]
  · next h =>
    rw [not_ne_iff] at h
    rw [except_seq_ok, assert_valid_time_bounds_ok_iff, checkTiers_ok_iff]
    simp [h]

/-! ### C2: the spec's concrete validation scenario -/

/-- C2 counterexample: the claim asserts that shifting the second item to
`(0.99, 2.0)` still validates; in fact `1.0 - 0.99 = 0.01 > 1e-6`, so
`TextGrid::assert_valid` rejects it with the overlap error for items 0, 1 of
tier "words". -/
theorem C2_counterexample :
    (wordsGrid { tmin := 99/100, tmax := 2, label := str "world" }).assert_valid
      = Except.error (VErr.itemOverlap 0 1 (str "words")) := by
  with_unfolding_all decide

/-- C2 (amended): the grid with items `(0,1,"hello")`, `(1,2,"world")`
validates; with the second item at `(0.99,2,"world")` validation fails with
the overlap error (the 0.01 overlap exceeds the 1e-6 epsilon); with the
second item at `(0.9,2,"world")` it fails with the same overlap error. -/
theorem C2_amended_theorem :
    (wordsGrid { tmin := 1, tmax := 2, label := str "world" }).assert_valid
      = Except.ok ()
    ∧ (wordsGrid { tmin := 99/100, tmax := 2, label := str "world" }).assert_valid
      = Except.error (VErr.itemOverlap 0 1 (str "words"))
    ∧ (wordsGrid { tmin := 9/10, tmax := 2, label := str "world" }).assert_valid
      = Except.error (VErr.itemOverlap 0 1 (str "words")) := by
  refine ⟨?_, ?_, ?_⟩ <;> with_unfolding_all decide

/-! ### C3: the overlap check also runs inside point tiers -/

/-- C3 counterexample: a point tier that meets every condition of the claim
(point kind, size matches, valid bounds, every item with `tmin = tmax`) but
is rejected, because `Tier::assert_valid` applies the consecutive-overlap
check to point tiers as well: `5 - 1 = 4 > 1e-6`. -/
theorem C3_counterexample :
    disorderedPointTier.interval_tier = false
    ∧ disorderedPointTier.size = disorderedPointTier.items.length
    ∧ timeBoundsOk disorderedPointTier.tmin disorderedPointTier.tmax
    ∧ (∀ it ∈ disorderedPointTier.items, |it.tmin - it.tmax| ≤ TIME_EPSILON)
    ∧ disorderedPointTier.assert_valid
        = Except.error (VErr.itemOverlap 0 1 (str "p")) := by
  refine ⟨?_, ?_, ?_, ?_, ?_⟩ <;> with_unfolding_all decide

/-- C3 (amended): the consecutive-items check `items[i].tmax - items[i+1].tmin
<= 1e-6` is applied in every tier, point tiers included; a point tier with
matching size, valid bounds and pointlike items validates if and only if its
consecutive items additionally satisfy that ordering constraint. -/
theorem C3_amended_theorem (t : Tier)
    (hkind : t.interval_tier = false)
    (hsize : t.size = t.items.length)
    (hbounds : timeBoundsOk t.tmin t.tmax)
    (hpoints : ∀ it ∈ t.items, |it.tmin - it.tmax| ≤ TIME_EPSILON) :
    t.assert_valid = Except.ok () ↔ List.Chain' noOverlap t.items := by
  rw [tier_assert_valid_ok_iff]
  unfold Tier.validSpec
  constructor
  · intro h
    exact h.2.2.2
  · intro h
    refine ⟨hsize, hbounds, ?_, h⟩
    intro it hit
    constructor
    · intro hc
      rw [hkind] at hc
      exact absurd hc (by simp)
    · intro _
      exact hpoints it hit

/-- C3 witness: the amended theorem applied to the concrete ordered point
tier; its consecutive items satisfy the ordering constraint, so validation
succeeds. -/
theorem C3_witness : orderedPointTier.assert_valid = Except.ok () :=
  (C3_amended_theorem orderedPointTier
    (by with_unfolding_all decide) (by with_unfolding_all decide)
    (by with_unfolding_all decide) (by with_unfolding_all decide)).mpr
    (List.chain'_cons.mpr
      ⟨by with_unfolding_all decide, List.chain'_singleton _⟩)

/-! ### C5: what validation rejects -/

/-- C5 counterexample: a TextGrid that contains an interval item with
`tmax <= tmin` but whose validation error is the TextGrid size-mismatch
error, not a time-bounds error — the claim's "fails with a time-bounds
error" does not hold universally because validation short-circuits on the
checks that run first. -/
theorem C5_counterexample :
    (∃ t ∈ sizeAndBoundsGrid.tiers, t.interval_tier = true ∧
      ∃ it ∈ t.items, it.tmax ≤ it.tmin)
    ∧ sizeAndBoundsGrid.assert_valid = Except.error VErr.tgSizeMismatch := by
  constructor
  · with_unfolding_all decide
  · with_unfolding_all decide

/-- C5 (amended): each documented violation guarantees that validation fails;
the documented error kind is the one reported when that violation is the
first check reached (here shown on grids whose only flaw is the violation in
question): a `tmax <= tmin` interval item yields the time-bounds error, a
consecutive overlap beyond 1e-6 yields the overlap error, and a declared
tier size differing from the item count yields the size-mismatch error. -/
theorem C5_amended_theorem :
    (∀ tg : TextGrid, (∃ t ∈ tg.tiers, t.interval_tier = true ∧
        ∃ it ∈ t.items, it.tmax ≤ it.tmin) → tg.assert_valid ≠ Except.ok ())
    ∧ (∀ tg : TextGrid, (∃ t ∈ tg.tiers, ∃ i : ℕ, ∃ a b : Item,
        t.items.get? i = some a ∧ t.items.get? (i + 1) = some b ∧
        a.tmax - b.tmin > TIME_EPSILON) → tg.assert_valid ≠ Except.ok ())
    ∧ (∀ tg : TextGrid, (∃ t ∈ tg.tiers, t.size ≠ t.items.length) →
        tg.assert_valid ≠ Except.ok ())
    ∧ badBoundsGrid.assert_valid
        = Except.error (VErr.minNotLessThanMax (VLoc.item 0 (str "bad")))
    ∧ overlapGrid.assert_valid = Except.error (VErr.itemOverlap 0 1 (str "o"))
    ∧ sizeMismatchGrid.assert_valid = Except.error VErr.tierSizeMismatch := by
  refine ⟨?_, ?_, ?_, ?_, ?_, ?_⟩
  · rintro tg ⟨t, ht, hkind, it, hit, hle⟩ hok
    rw [textgrid_assert_valid_ok_iff] at hok
    have hts := hok.2.2 t ht
    have hio := (hts.2.2.1 it hit).1 hkind
    have h2 := hio.2
    unfold TIME_EPSILON at h2
    linarith
  · rintro tg ⟨t, ht, i, a, b, ha, hb, hgt⟩ hok
    rw [textgrid_assert_valid_ok_iff] at hok
    have hts := hok.2.2 t ht
    have hchain := hts.2.2.2
    rw [List.chain'_iff_get] at hchain
    have hblt : i + 1 < t.items.length := (List.get?_eq_some.mp hb).1
    have ha2 : t.items.get ⟨i, by omega⟩ = a := (List.get?_eq_some.mp ha).2
    have hb2 : t.items.get ⟨i + 1, hblt⟩ = b := (List.get?_eq_some.mp hb).2
    have hno := hchain i (by omega)
    rw [ha2, hb2] at hno
    unfold noOverlap at hno
    linarith
  · rintro tg ⟨t, ht, hsz⟩ hok
    rw [textgrid_assert_valid_ok_iff] at hok
    exact hsz (hok.2.2 t ht).1
  · with_unfolding_all decide
  · with_unfolding_all decide
  · with_unfolding_all decide

/-- C5 witness: the three universal parts of the amended theorem applied to
the three concrete single-flaw grids. -/
theorem C5_witness :
    badBoundsGrid.assert_valid ≠ Except.ok ()
    ∧ overlapGrid.assert_valid ≠ Except.ok ()
    ∧ sizeMismatchGrid.assert_valid ≠ Except.ok () :=
  ⟨C5_amended_theorem.1 badBoundsGrid (by with_unfolding_all decide),
   C5_amended_theorem.2.1 overlapGrid
     ⟨oTier, by with_unfolding_all decide, 0,
      { tmin := 0, tmax := 2, label := [] },
      { tmin := 3/2, tmax := 3, label := [] },
      by with_unfolding_all decide, by with_unfolding_all decide,
      by with_unfolding_all decide⟩,
   C5_amended_theorem.2.2.1 sizeMismatchGrid (by with_unfolding_all decide)⟩

/-! ### C6: flat-form reconstruction length check -/

/-- C6: whenever the five flat input vectors do not all have the same length,
`from_vectors` returns the `InvalidInput` error (in the model the error is
produced before any `TextGrid` value is formed, mirroring the early
`return Err` in the source). -/
theorem C6_theorem (tmins tmaxs : List ℚ) (labels tier_names : List Str)
    (is_intervals : List Bool) (tmin tmax : Option ℚ) (name : Option Str)
    (h : ¬(tmins.length = tmaxs.length ∧ tmins.length = labels.length ∧
           tmins.length = tier_names.length ∧ tmins.length = is_intervals.length)) :
    TextGrid.from_vectors tmins tmaxs labels tier_names is_intervals tmin tmax name
      = Except.error CErr.invalidInput := by
  have hd : tmins.length ≠ tmaxs.length ∨ tmins.length ≠ labels.length ∨
      tmins.length ≠ tier_names.length ∨ tmins.length ≠ is_intervals.length := by
    tauto
  unfold TextGrid.from_vectors
  rw [if_pos hd]

/-- C6 witness: one time value but no other entries. -/
theorem C6_witness :
    TextGrid.from_vectors [0] [] [] [] [] none none none
      = Except.error CErr.invalidInput :=
  C6_theorem [0] [] [] [] [] none none none (by with_unfolding_all decide)

/-! ### C8: nested-form reconstruction -/

theorem foldl_max_mem (x : ℚ) (xs : List ℚ) : xs.foldl max x ∈ x :: xs := by
  induction xs generalizing x with
  | nil => simp
  | cons y ys ih =>
    simp only [List.foldl_cons]
    rcases List.mem_cons.mp (ih (max x y)) with h | h
    · rw [h]
      rcases max_choice x y with hm | hm <;> rw [hm] <;> simp
    · simp [h]

theorem le_foldl_max (x : ℚ) (xs : List ℚ) : ∀ y ∈ x :: xs, y ≤ xs.foldl max x := by
  induction xs generalizing x with
  | nil => simp
  | cons z zs ih =>
    intro y hy
    rcases List.mem_cons.mp hy with rfl | hy
    · calc y ≤ max y z := le_max_left y z
        _ ≤ zs.foldl max (max y z) := ih (max y z) _ (by simp)
    · rcases List.mem_cons.mp hy with rfl | hy
      · calc y ≤ max x y := le_max_right x y
          _ ≤ zs.foldl max (max x y) := ih (max x y) _ (by simp)
      · exact ih (max x z) y (by simp [hy])

theorem foldl_min_mem (x : ℚ) (xs : List ℚ) : xs.foldl min x ∈ x :: xs := by
  induction xs generalizing x with
  | nil => simp
  | cons y ys ih =>
    simp only [List.foldl_cons]
    rcases List.mem_cons.mp (ih (min x y)) with h | h
    · rw [h]
      rcases min_choice x y with hm | hm <;> rw [hm] <;> simp
    · simp [h]

theorem foldl_min_le (x : ℚ) (xs : List ℚ) : ∀ y ∈ x :: xs, xs.foldl min x ≤ y := by
  induction xs generalizing x with
  | nil => simp
  | cons z zs ih =>
    intro y hy
    rcases List.mem_cons.mp hy with rfl | hy
    · calc zs.foldl min (min y z) ≤ min y z := ih (min y z) _ (by simp)
        _ ≤ y := min_le_left y z
    · rcases List.mem_cons.mp hy with rfl | hy
      · calc zs.foldl min (min x y) ≤ min x y := ih (min x y) _ (by simp)
          _ ≤ y := min_le_right x y
      · exact ih (min x z) y (by simp [hy])

theorem get_extreme_max_spec {α : Type} (items : List α) (key : α → ℚ)
    (h : items ≠ []) :
    ∃ m, get_extreme items key true = some m ∧ m ∈ items.map key ∧
      ∀ y ∈ items.map key, y ≤ m := by
  unfold get_extreme
  cases hm : items.map key with
  | nil => exact absurd (List.map_eq_nil_iff.mp hm) h
  | cons x xs =>
    refine ⟨xs.foldl max x, by simp, ?_, ?_⟩
    · exact foldl_max_mem x xs
    · exact le_foldl_max x xs

theorem get_extreme_min_spec {α : Type} (items : List α) (key : α → ℚ)
    (h : items ≠ []) :
    ∃ m, get_extreme items key false = some m ∧ m ∈ items.map key ∧
      ∀ y ∈ items.map key, m ≤ y := by
  unfold get_extreme
  cases hm : items.map key with
  | nil => exact absurd (List.map_eq_nil_iff.mp hm) h
  | cons x xs =>
    refine ⟨xs.foldl min x, by simp, ?_, ?_⟩
    · exact foldl_min_mem x xs
    · exact foldl_min_le x xs

theorem from_data_tiers_eq (data : List (Str × Bool × List (ℚ × ℚ × Str)))
    (tmin tmax : Option ℚ) :
    from_data_tiers data tmin tmax
      = (data.filter (fun d => !d.2.2.isEmpty)).map
          (fun d => make_tier (d.2.2.map dataItem) d.1 d.2.1 tmin tmax) := by
  induction data with
  | nil => rfl
  | cons d rest ih =>
    have hiso : (d.2.2.map dataItem).isEmpty = d.2.2.isEmpty := by
      cases h : d.2.2 <;> rfl
    simp only [from_data_tiers, List.filter_cons, hiso]
    cases hemp : d.2.2.isEmpty with
    | false => simp [hemp, ih]
    | true => simp [hemp, ih]

theorem make_textgrid_ok_elim (tiers : List Tier) (name : Option Str)
    (tmin tmax : Option ℚ) (tg : TextGrid)
    (h : make_textgrid tiers name tmin tmax = Except.ok tg) :
    tg.tiers = tiers ∧ tg.assert_valid = Except.ok () := by
  simp only [make_textgrid] at h
  revert h
  split
  · next a heq =>
    intro h
    cases h
    cases a
    exact ⟨rfl, heq⟩
  · next heq =>
    intro h
    cases h

/-- C8: under `from_data` with no explicit bounds, exactly the tiers with a
nonempty item sequence survive (in order), and each surviving tier's bounds
are the minimum item `tmin` and maximum item `tmax`. -/
theorem C8_theorem (data : List (Str × Bool × List (ℚ × ℚ × Str)))
    (name : Option Str) (tg : TextGrid)
    (h : TextGrid.from_data data name none none = Except.ok tg) :
    tg.tiers = (data.filter (fun d => !d.2.2.isEmpty)).map
        (fun d => make_tier (d.2.2.map dataItem) d.1 d.2.1 none none)
    ∧ ∀ t ∈ tg.tiers, t.items ≠ []
      ∧ t.tmin ∈ t.items.map Item.tmin ∧ (∀ q ∈ t.items.map Item.tmin, t.tmin ≤ q)
      ∧ t.tmax ∈ t.items.map Item.tmax ∧ (∀ q ∈ t.items.map Item.tmax, q ≤ t.tmax) := by
  have htiers : tg.tiers = from_data_tiers data none none := by
    unfold TextGrid.from_data at h
    exact (make_textgrid_ok_elim _ _ _ _ _ h).1
  constructor
  · rw [htiers, from_data_tiers_eq]
  · intro t ht
    rw [htiers, from_data_tiers_eq] at ht
    obtain ⟨d, hd, rfl⟩ := List.mem_map.mp ht
    have hne : d.2.2.map dataItem ≠ [] := by
      have := List.of_mem_filter hd
      simp only [Bool.not_eq_true'] at this
      intro hc
      rw [List.map_eq_nil_iff.mp hc] at this
      simp at this
    have hitems : (make_tier (d.2.2.map dataItem) d.1 d.2.1 none none).items
        = d.2.2.map dataItem := rfl
    refine ⟨by rw [hitems]; exact hne, ?_⟩
    obtain ⟨mn, hmn, hmem_n, hall_n⟩ :=
      get_extreme_min_spec (d.2.2.map dataItem) (fun it => it.tmin) hne
    obtain ⟨mx, hmx, hmem_x, hall_x⟩ :=
      get_extreme_max_spec (d.2.2.map dataItem) (fun it => it.tmax) hne
    have h1 : (make_tier (d.2.2.map dataItem) d.1 d.2.1 none none).tmin = mn := by
      unfold make_tier get_optional_extreme
      simp [hmn]
    have h2 : (make_tier (d.2.2.map dataItem) d.1 d.2.1 none none).tmax = mx := by
      unfold make_tier get_optional_extreme
      simp [hmx]
    rw [hitems, h1, h2]
    exact ⟨by simpa using hmem_n, by simpa using hall_n,
           by simpa using hmem_x, by simpa using hall_x⟩

/-- C8 witness: the theorem applied to a concrete reconstruction in which the
empty tier "b" is dropped and tier "a" gets bounds 0 and 2. -/
theorem C8_witness :
    c8Grid.tiers = (c8Data.filter (fun d => !d.2.2.isEmpty)).map
        (fun d => make_tier (d.2.2.map dataItem) d.1 d.2.1 none none) :=
  (C8_theorem c8Data none c8Grid (by with_unfolding_all decide)).1

theorem alLookup_eq_none_iff {β : Type} (m : List (Str × β)) (n : Str) :
    alLookup m n = none ↔ n ∉ m.map Prod.fst := by
  induction m with
  | nil => simp [alLookup]
  | cons kv rest ih =>
    obtain ⟨k, v⟩ := kv
    unfold alLookup
    by_cases h : k = n
    · subst h
      rw [if_pos rfl]
      constructor
      · intro hc
        cases hc
      · intro hc
        exfalso
        apply hc
        rw [List.map_cons]
        exact List.mem_cons_self _ _
    · rw [if_neg h, ih, List.map_cons]
      constructor
      · intro hx hmem
        rcases List.mem_cons.mp hmem with rfl | hmem
        · exact h rfl
        · exact hx hmem
      · intro hx hmem
        exact hx (List.mem_cons_of_mem _ hmem)

theorem dedupFirst_cons (n : Str) (rest seen : List Str) :
    dedupFirst (n :: rest) seen
      = if n ∈ seen then dedupFirst rest seen
        else n :: dedupFirst rest (seen ++ [n]) := rfl

theorem alLookup_append {β : Type} (m : List (Str × β)) (k : Str) (v : β) (n : Str) :
    alLookup (m ++ [(k, v)]) n
      = match alLookup m n with
        | some w => some w
        | none => if k = n then some v else none := by
  induction m with
  | nil => rfl
  | cons kv rest ih =>
    obtain ⟨k2, v2⟩ := kv
    by_cases h : k2 = n
    · simp [alLookup, h]
    · simp only [List.cons_append, alLookup, if_neg h]
      exact ih

theorem alPush_lookup (m : List (Str × (List Item × Bool))) (key : Str)
    (it : Item) (n : Str) :
    alLookup (alPush m key it) n
      = if key = n then (alLookup m n).map (fun v => (v.1 ++ [it], v.2))
        else alLookup m n := by
  induction m with
  | nil =>
    simp only [alPush, alLookup]
    split <;> rfl
  | cons kv rest ih =>
    obtain ⟨k2, v2⟩ := kv
    unfold alPush
    split
    · next hk =>
      subst hk
      unfold alLookup
      split
      · next h => subst h; simp
      · next h => simp [ih, h]
    · next hk =>
      unfold alLookup
      split
      · next h =>
        subst h
        have hkn : ¬(key = k2) := fun hc => hk hc.symm
        simp [hkn]
      · next h => exact ih

theorem alPush_keys (m : List (Str × (List Item × Bool))) (key : Str) (it : Item) :
    (alPush m key it).map Prod.fst = m.map Prod.fst := by
  induction m with
  | nil => rfl
  | cons kv rest ih =>
    obtain ⟨k2, v2⟩ := kv
    unfold alPush
    split
    · simp
    · simp [ih]

theorem dedupFirst_subset (l : List Str) (seen : List Str) :
    ∀ n ∈ dedupFirst l seen, n ∈ l := by
  induction l generalizing seen with
  | nil => simp [dedupFirst]
  | cons x rest ih =>
    intro n hn
    unfold dedupFirst at hn
    split at hn
    · exact List.mem_cons_of_mem _ (ih seen n hn)
    · rcases List.mem_cons.mp hn with rfl | hn
      · simp
      · exact List.mem_cons_of_mem _ (ih (seen ++ [x]) n hn)

theorem filterMap_eq_map_of_some {α β : Type} (f : α → Option β) (g : α → β)
    (l : List α) (h : ∀ x ∈ l, f x = some (g x)) : l.filterMap f = l.map g := by
  induction l with
  | nil => rfl
  | cons x rest ih =>
    rw [List.filterMap_cons, h x (by simp), List.map_cons,
      ih (fun y hy => h y (by simp [hy]))]

theorem itemsOfName_cons_eq (e : FlatEntry) (rest : List FlatEntry) :
    itemsOfName (e :: rest) (entryName e)
      = entryItem e :: itemsOfName rest (entryName e) := by
  unfold itemsOfName
  rw [List.filter_cons]
  simp

theorem itemsOfName_cons_ne (e : FlatEntry) (rest : List FlatEntry) (n : Str)
    (h : entryName e ≠ n) :
    itemsOfName (e :: rest) n = itemsOfName rest n := by
  unfold itemsOfName
  rw [List.filter_cons]
  simp [h]

theorem flagOfName_cons_eq (e : FlatEntry) (rest : List FlatEntry) :
    flagOfName (e :: rest) (entryName e) = entryFlag e := by
  unfold flagOfName
  rw [List.find?_cons]
  simp

theorem flagOfName_cons_ne (e : FlatEntry) (rest : List FlatEntry) (n : Str)
    (h : entryName e ≠ n) :
    flagOfName (e :: rest) n = flagOfName rest n := by
  unfold flagOfName
  rw [List.find?_cons]
  simp [h]

theorem mem_names_cons_ne (e : FlatEntry) (rest : List FlatEntry) (n : Str)
    (h : entryName e ≠ n) :
    (n ∈ (e :: rest).map entryName) ↔ (n ∈ rest.map entryName) := by
  rw [List.map_cons]
  constructor
  · intro hx
    rcases List.mem_cons.mp hx with rfl | hx
    · exact absurd rfl h
    · exact hx
  · exact fun hx => List.mem_cons_of_mem _ hx

theorem from_vectors_loop_spec (entries : List FlatEntry) (order : List Str)
    (m : List (Str × (List Item × Bool))) (hkeys : m.map Prod.fst = order) :
    (from_vectors_loop entries order m).1
      = order ++ dedupFirst (entries.map entryName) order
    ∧ ∀ n : Str, alLookup (from_vectors_loop entries order m).2 n
        = match alLookup m n with
          | some v => some (v.1 ++ itemsOfName entries n, v.2)
          | none =>
            if n ∈ entries.map entryName then
              some (itemsOfName entries n, flagOfName entries n)
            else none := by
  induction entries generalizing order m with
  | nil =>
    refine ⟨by simp [from_vectors_loop, dedupFirst], ?_⟩
    intro n
    simp only [from_vectors_loop, itemsOfName, flagOfName, List.map_nil,
      List.filter_nil, List.not_mem_nil, if_false]
    cases alLookup m n <;> simp
  | cons e rest ih =>
    cases hl : alLookup m (entryName e) with
    | none =>
      have hnotin : entryName e ∉ order := by
        rw [← hkeys]
        exact (alLookup_eq_none_iff m _).mp hl
      obtain ⟨iho, ihl⟩ := ih (order ++ [entryName e])
        (m ++ [(entryName e, ([entryItem e], entryFlag e))])
        (by rw [List.map_append, hkeys]; rfl)
      constructor
      · simp only [from_vectors_loop, hl]
        rw [iho, List.map_cons, dedupFirst_cons, if_neg hnotin]
        simp [List.append_assoc]
      · intro n
        simp only [from_vectors_loop, hl]
        rw [ihl n, alLookup_append]
        cases hmn : alLookup m n with
        | some v =>
          have hne : entryName e ≠ n := by
            intro hc
            rw [hc] at hl
            rw [hl] at hmn
            cases hmn
          simp only [if_neg hne]
          rw [itemsOfName_cons_ne e rest n hne]
        | none =>
          by_cases hne : entryName e = n
          · subst hne
            simp only [if_pos rfl]
            rw [itemsOfName_cons_eq, flagOfName_cons_eq]
            simp [List.map_cons]
          · simp only [if_neg hne]
            rw [itemsOfName_cons_ne e rest n hne, flagOfName_cons_ne e rest n hne]
            simp only [mem_names_cons_ne e rest n hne]
    | some v =>
      have hin : entryName e ∈ order := by
        rw [← hkeys]
        by_contra hc
        rw [← alLookup_eq_none_iff] at hc
        rw [hc] at hl
        cases hl
      obtain ⟨iho, ihl⟩ := ih order (alPush m (entryName e) (entryItem e))
        (by rw [alPush_keys]; exact hkeys)
      constructor
      · simp only [from_vectors_loop, hl]
        rw [iho, List.map_cons, dedupFirst_cons, if_pos hin]
      · intro n
        simp only [from_vectors_loop, hl]
        rw [ihl n, alPush_lookup]
        by_cases hne : entryName e = n
        · subst hne
          rw [if_pos rfl, hl]
          simp only [Option.map_some']
          rw [itemsOfName_cons_eq]
          simp [List.append_assoc]
        · rw [if_neg hne]
          rw [itemsOfName_cons_ne e rest n hne, flagOfName_cons_ne e rest n hne]
          cases hmn : alLookup m n with
          | some w => rfl
          | none => simp only [mem_names_cons_ne e rest n hne]

theorem tminLe_trans : ∀ a b c : Item, tminLe a b = true → tminLe b c = true →
    tminLe a c = true := by
  intro a b c hab hbc
  simp only [tminLe, decide_eq_true_eq] at *
  exact le_trans hab hbc

theorem tminLe_total : ∀ a b : Item, (tminLe a b || tminLe b a) = true := by
  intro a b
  simp only [tminLe, Bool.or_eq_true, decide_eq_true_eq]
  exact le_total a.tmin b.tmin

/-- C7: a successful `from_vectors` reconstruction (no explicit bounds) yields
tiers named by first occurrence of each tier name in the input, where each
tier holds exactly the items carried by the entries with its name — sorted
ascending by `tmin` (stably, via merge sort) — and the interval flag of the
first entry with its name. -/
theorem C7_theorem (tmins tmaxs : List ℚ) (labels tier_names : List Str)
    (is_intervals : List Bool) (tmin tmax : Option ℚ) (nm : Option Str)
    (tg : TextGrid)
    (h : TextGrid.from_vectors tmins tmaxs labels tier_names is_intervals
        tmin tmax nm = Except.ok tg) :
    tg.tiers.map Tier.name
      = dedupFirst ((zip5 tmins tmaxs labels tier_names is_intervals).map entryName) []
    ∧ ∀ t ∈ tg.tiers,
        t.items = (itemsOfName (zip5 tmins tmaxs labels tier_names is_intervals)
            t.name).mergeSort tminLe
        ∧ t.interval_tier
            = flagOfName (zip5 tmins tmaxs labels tier_names is_intervals) t.name
        ∧ List.Pairwise (fun a b : Item => a.tmin ≤ b.tmin) t.items := by
  simp only [TextGrid.from_vectors] at h
  revert h
  split
  · intro h
    cases h
  · intro h
    obtain ⟨htiers, _⟩ := make_textgrid_ok_elim _ _ _ _ _ h
    obtain ⟨ho, hlook⟩ := from_vectors_loop_spec
      (zip5 tmins tmaxs labels tier_names is_intervals) [] [] rfl
    rw [List.nil_append] at ho
    have hmem_names : ∀ x ∈ (from_vectors_loop
        (zip5 tmins tmaxs labels tier_names is_intervals) [] []).1,
        x ∈ (zip5 tmins tmaxs labels tier_names is_intervals).map entryName := by
      intro x hx
      rw [ho] at hx
      exact dedupFirst_subset _ _ x hx
    have hfm : (from_vectors_loop
          (zip5 tmins tmaxs labels tier_names is_intervals) [] []).1.filterMap
          (fun tname => (alLookup (from_vectors_loop
              (zip5 tmins tmaxs labels tier_names is_intervals) [] []).2 tname).map
            (fun p => make_tier (p.1.mergeSort tminLe) tname p.2 tmin tmax))
        = (from_vectors_loop
            (zip5 tmins tmaxs labels tier_names is_intervals) [] []).1.map
          (fun tname => make_tier
            ((itemsOfName (zip5 tmins tmaxs labels tier_names is_intervals)
              tname).mergeSort tminLe)
            tname
            (flagOfName (zip5 tmins tmaxs labels tier_names is_intervals) tname)
            tmin tmax) := by
      apply filterMap_eq_map_of_some
      intro x hx
      rw [hlook x]
      simp only [alLookup]
      rw [if_pos (hmem_names x hx)]
      rfl
    rw [hfm] at htiers
    constructor
    · rw [htiers, List.map_map, ho]
      have : (Tier.name ∘ fun tname => make_tier
          ((itemsOfName (zip5 tmins tmaxs labels tier_names is_intervals)
            tname).mergeSort tminLe) tname
          (flagOfName (zip5 tmins tmaxs labels tier_names is_intervals) tname)
          tmin tmax) = id := by
        funext x
        rfl
      rw [this, List.map_id]
    · intro t ht
      rw [htiers] at ht
      obtain ⟨x, _, rfl⟩ := List.mem_map.mp ht
      refine ⟨rfl, rfl, ?_⟩
      have hs := List.sorted_mergeSort tminLe_trans tminLe_total
        (itemsOfName (zip5 tmins tmaxs labels tier_names is_intervals) x)
      have hitems : (make_tier ((itemsOfName
          (zip5 tmins tmaxs labels tier_names is_intervals) x).mergeSort tminLe) x
          (flagOfName (zip5 tmins tmaxs labels tier_names is_intervals) x)
          tmin tmax).items
          = (itemsOfName (zip5 tmins tmaxs labels tier_names is_intervals)
              x).mergeSort tminLe := rfl
      rw [hitems]
      exact hs.imp (fun hab => by
        simpa [tminLe, decide_eq_true_eq] using hab)

/-- C7 witness: the theorem applied to an interleaved flat input (tier "b",
then "a", then "b" again); the items of "b" arrive out of order and end up
sorted, and the tier order is first-occurrence order. -/
theorem C7_witness :
    c7Grid.tiers.map Tier.name
      = dedupFirst ((zip5 [2, 0, 1] [3, 1, 2] [str "q", str "r", str "p"]
          [str "b", str "a", str "b"] [true, true, true]).map entryName) []
    ∧ ∀ t ∈ c7Grid.tiers,
        t.items = (itemsOfName (zip5 [2, 0, 1] [3, 1, 2]
            [str "q", str "r", str "p"] [str "b", str "a", str "b"]
            [true, true, true]) t.name).mergeSort tminLe
        ∧ t.interval_tier = flagOfName (zip5 [2, 0, 1] [3, 1, 2]
            [str "q", str "r", str "p"] [str "b", str "a", str "b"]
            [true, true, true]) t.name
        ∧ List.Pairwise (fun a b : Item => a.tmin ≤ b.tmin) t.items :=
  C7_theorem [2, 0, 1] [3, 1, 2] [str "q", str "r", str "p"]
    [str "b", str "a", str "b"] [true, true, true] none none none c7Grid
    (by with_unfolding_all decide)

/-- C9: an unparseable numeric token defaults to 0 (`parse_float`) or 0
(`parse_uint`) instead of failing; the only fatal outcome of a key-value line
in the long parser is the unknown-class panic — numeric keys never abort; and
concretely, a file with garbage time fields parses successfully (to zeroed
fields) in tolerant mode in both formats and is rejected only by the strict
post-parse validation. -/
theorem C9_theorem :
    (∀ s : Str, strToNum? s = none → parse_float s = 0)
    ∧ (∀ s : Str, parseDigits? s = none → parse_uint s = 0)
    ∧ (∀ (line : Str) (t : Tier), parse_tier_kv line t = none →
        ∃ v, parse_kv line = some (str "class", v)
          ∧ trimMatches '"' v ≠ str "IntervalTier"
          ∧ trimMatches '"' v ≠ str "TextTier")
    ∧ read_from_file_long garbageLongContent [] false
        = some (Except.ok
            { tmin := 0, tmax := 0, size := 0, name := [], tiers := [] })
    ∧ read_from_file_long garbageLongContent [] true
        = some (Except.error (VErr.nonNegativeBounds VLoc.textgrid))
    ∧ read_from_file_short garbageShortContent [] false
        = some (Except.ok
            { tmin := 0, tmax := 0, size := 0, name := [], tiers := [] })
    ∧ read_from_file_short garbageShortContent [] true
        = some (Except.error (VErr.nonNegativeBounds VLoc.textgrid)) := by
  refine ⟨?_, ?_, ?_, ?_, ?_, ?_, ?_⟩
  · intro s h
    unfold parse_float
    rw [h]
    rfl
  · intro s h
    unfold parse_uint
    rw [h]
    rfl
  · intro line t h
    unfold parse_tier_kv at h
    revert h
    cases hkv : parse_kv line with
    | none => intro h; cases h
    | some kv =>
      obtain ⟨k, v⟩ := kv
      dsimp only
      by_cases h1 : k = str "class"
      · subst h1
        rw [if_pos rfl]
        by_cases h2 : trimMatches '"' v = str "IntervalTier"
        · rw [if_pos h2]
          intro h
          cases h
        · rw [if_neg h2]
          by_cases h3 : trimMatches '"' v = str "TextTier"
          · rw [if_pos h3]
            intro h
            cases h
          · rw [if_neg h3]
            intro _
            exact ⟨v, rfl, h2, h3⟩
      · rw [if_neg h1]
        split
        · intro h; cases h
        · split
          · intro h; cases h
          · split
            · intro h; cases h
            · split
              · intro h; cases h
              · split
                · intro h; cases h
                · intro h; cases h
  · with_unfolding_all decide
  · with_unfolding_all decide
  · with_unfolding_all decide
  · with_unfolding_all decide

/-- C9 witness: the default-to-zero parts applied to the concrete garbage
token "abc". -/
theorem C9_witness :
    parse_float (str "abc") = 0 ∧ parse_uint (str "abc") = 0 :=
  ⟨C9_theorem.1 (str "abc") (by with_unfolding_all decide),
   C9_theorem.2.1 (str "abc") (by with_unfolding_all decide)⟩

/-! ### C4: batch conversion and per-file failure -/

theorem mapM_option_spec {α β : Type} (f : α → Option β) (l : List α)
    (r : List β) (h : l.mapM f = some r) :
    r.length = l.length
    ∧ ∀ i (a : α), l.get? i = some a → r.get? i = f a := by
  induction l generalizing r with
  | nil =>
    cases h
    exact ⟨rfl, fun i a ha => by cases ha⟩
  | cons x xs ih =>
    rw [List.mapM_cons] at h
    cases hfx : f x with
    | none => rw [hfx] at h; cases h
    | some b =>
      rw [hfx] at h
      cases hrest : xs.mapM f with
      | none => rw [hrest] at h; cases h
      | some bs =>
        rw [hrest] at h
        cases h
        obtain ⟨ihlen, ihget⟩ := ih bs hrest
        refine ⟨by simp [ihlen], ?_⟩
        intro i a ha
        cases i with
        | zero =>
          cases ha
          simpa using hfx.symm
        | succ j =>
          simp only [List.get?_cons_succ] at ha ⊢
          exact ihget j a ha

/-- C4 (amended): when the whole batch is defined (no per-file panic), each
slot of `files_to_data`/`files_to_vectors` is exactly the conversion of its
own file, and a file whose read yields an `Err` (e.g. an unreadable path in
`auto` mode, or a strict-mode validation failure) contributes the empty
placeholder without affecting any other slot. -/
theorem C4_amended_theorem :
    (∀ (fs : FileSys) (fnames : List Str) (strict : Bool) (ft : Str)
        (datas : List FileData),
      files_to_data fs fnames strict ft = some datas →
      datas.length = fnames.length
      ∧ (∀ i fname, fnames.get? i = some fname →
          datas.get? i = file_to_data fs strict ft fname)
      ∧ ∀ i fname e, fnames.get? i = some fname →
          read_from_file fs fname strict ft = some (Except.error e) →
          datas.get? i = some (0, 0, []))
    ∧ (∀ (fs : FileSys) (fnames : List Str) (strict : Bool) (ft : Str)
        (vecs : List FileVectors),
      files_to_vectors fs fnames strict ft = some vecs →
      vecs.length = fnames.length
      ∧ (∀ i fname, fnames.get? i = some fname →
          vecs.get? i = file_to_vectors fs strict ft fname)
      ∧ ∀ i fname e, fnames.get? i = some fname →
          read_from_file fs fname strict ft = some (Except.error e) →
          vecs.get? i = some ([], [], [], [], [])) := by
  constructor
  · intro fs fnames strict ft datas h
    obtain ⟨hlen, hget⟩ := mapM_option_spec _ _ _ h
    refine ⟨hlen, hget, ?_⟩
    intro i fname e hi hrd
    rw [hget i fname hi]
    unfold file_to_data
    rw [hrd]
    rfl
  · intro fs fnames strict ft vecs h
    obtain ⟨hlen, hget⟩ := mapM_option_spec _ _ _ h
    refine ⟨hlen, hget, ?_⟩
    intro i fname e hi hrd
    rw [hget i fname hi]
    unfold file_to_vectors
    rw [hrd]
    rfl

/-- C4 counterexample: in short mode, the truncated file "e" makes the parse
panic, and the panic aborts the whole batch — `files_to_data` produces no
result at all (not even for the well-formed "g"), while "g" alone converts
fine.  The claim's "a fatal failure while reading or parsing one file does
not abort the batch" fails: only `Err` results are absorbed as placeholders;
fatal parse failures are panics that kill the batch. -/
theorem C4_counterexample :
    files_to_data c4fs [str "g", str "e"] false (str "short") = none
    ∧ files_to_data c4fs [str "g"] false (str "short") = some [(0, 5, [])] := by
  constructor
  · with_unfolding_all decide
  · with_unfolding_all decide

/-- C4 witness: a batch in `auto` mode where path "m" is unreadable; the read
error surfaces as `Err`, the slot of "m" is the placeholder, and the slot of
"g" equals its stand-alone conversion. -/
theorem C4_witness :
    ([((0 : ℚ), (5 : ℚ), ([] : List (Str × Bool × List (ℚ × ℚ × Str)))),
      (0, 0, [])] : List FileData).get? 0
        = file_to_data c4fs false (str "auto") (str "g")
    ∧ ([((0 : ℚ), (5 : ℚ), ([] : List (Str × Bool × List (ℚ × ℚ × Str)))),
        (0, 0, [])] : List FileData).get? 1 = some (0, 0, []) :=
  have h : files_to_data c4fs [str "g", str "m"] false (str "auto")
      = some [(0, 5, []), (0, 0, [])] := by with_unfolding_all decide
  ⟨(C4_amended_theorem.1 c4fs [str "g", str "m"] false (str "auto") _ h).2.1
      0 (str "g") rfl,
   (C4_amended_theorem.1 c4fs [str "g", str "m"] false (str "auto") _ h).2.2
      1 (str "m") RdErr.ioError rfl (by with_unfolding_all decide)⟩

theorem joinCRLF_nil : joinCRLF [] = [] := rfl

theorem joinCRLF_cons (l : Str) (ls : List Str) :
    joinCRLF (l :: ls) = l ++ '\r' :: '\n' :: joinCRLF ls := by
  unfold joinCRLF
  rw [List.map_cons, List.flatten_cons, List.append_assoc]
  rfl

theorem joinCRLF_append (a b : List Str) :
    joinCRLF (a ++ b) = joinCRLF a ++ joinCRLF b := by
  unfold joinCRLF
  rw [List.map_append, List.flatten_append]

theorem splitOnChar_ne_nil (c : Char) (s : Str) : splitOnChar c s ≠ [] := by
  cases s with
  | nil => simp [splitOnChar]
  | cons x xs =>
    unfold splitOnChar
    cases h : splitOnChar c xs with
    | nil => simp
    | cons l ls =>
      by_cases hx : x = c <;> simp [hx]

theorem splitOnChar_append_cons (c : Char) (a b : Str) (h : c ∉ a) :
    splitOnChar c (a ++ c :: b) = a :: splitOnChar c b := by
  induction a with
  | nil =>
    rw [List.nil_append]
    cases hsp : splitOnChar c b with
    | nil => exact absurd hsp (splitOnChar_ne_nil c b)
    | cons l ls => simp [splitOnChar, hsp]
  | cons x xs ih =>
    simp only [List.mem_cons, not_or] at h
    rw [List.cons_append]
    simp [splitOnChar, ih h.2, Ne.symm h.1]

theorem splitOnChar_joinCRLF (ls : List Str) (h : ∀ l ∈ ls, noCRLF l) :
    splitOnChar '\n' (joinCRLF ls) = ls.map (fun l => l ++ ['\r']) ++ [[]] := by
  induction ls with
  | nil => rfl
  | cons l rest ih =>
    rw [joinCRLF_cons]
    have hnl : '\n' ∉ l ++ ['\r'] := by
      intro hc
      rcases List.mem_append.mp hc with hc | hc
      · exact (h l (by simp) '\n' hc).2 rfl
      · simp at hc
    have : l ++ '\r' :: '\n' :: joinCRLF rest
        = (l ++ ['\r']) ++ '\n' :: joinCRLF rest := by
      rw [List.append_assoc]
      rfl
    rw [this, splitOnChar_append_cons _ _ _ hnl, ih (fun x hx => h x (by simp [hx]))]
    rfl

theorem stripTrailingCR_concat (l : Str) : stripTrailingCR (l ++ ['\r']) = l := by
  unfold stripTrailingCR
  rw [List.getLast?_concat, if_pos rfl, List.dropLast_concat]

theorem rustLines_joinCRLF (ls : List Str) (h : ∀ l ∈ ls, noCRLF l) :
    rustLines (joinCRLF ls) = ls := by
  have h1 : rustLines (joinCRLF ls)
      = List.map stripTrailingCR (List.map (fun l => l ++ ['\r']) ls) := by
    unfold rustLines
    rw [splitOnChar_joinCRLF ls h]
    simp [List.getLast?_concat, List.dropLast_concat]
  rw [h1, List.map_map]
  have h2 : (stripTrailingCR ∘ fun l => l ++ ['\r']) = id :=
    funext fun x => stripTrailingCR_concat x
  rw [h2, List.map_id]

theorem joinCRLF_flatten (xss : List (List Str)) :
    joinCRLF xss.flatten = (xss.map joinCRLF).flatten := by
  induction xss with
  | nil => rfl
  | cons xs rest ih =>
    rw [List.flatten_cons, joinCRLF_append, ih, List.map_cons, List.flatten_cons]

theorem itemLongStr_eq (b : Bool) (i : ℕ) (it : Item) :
    itemLongStr b i it = joinCRLF (itemLines b i it) := by
  cases b <;>
    simp [itemLongStr, itemLines, joinCRLF, CRLF, List.append_assoc]

theorem tier_to_long_eq (t : Tier) (i : ℕ) :
    t.to_long_textgrid_string i = joinCRLF (tierLines t i) := by
  unfold Tier.to_long_textgrid_string tierLines
  rw [joinCRLF_append, joinCRLF_flatten, List.map_map]
  have hitems : (joinCRLF ∘ fun p : ℕ × Item => itemLines t.interval_tier p.1 p.2)
      = fun p : ℕ × Item => itemLongStr t.interval_tier p.1 p.2 := by
    funext p
    rw [Function.comp_apply, ← itemLongStr_eq]
  rw [hitems]
  simp [joinCRLF, CRLF, List.append_assoc]

theorem to_long_eq_joinCRLF (tg : TextGrid) :
    tg.to_long_textgrid_string = joinCRLF (longLines tg) := by
  unfold TextGrid.to_long_textgrid_string longLines
  rw [joinCRLF_append, joinCRLF_flatten, List.map_map]
  have htiers : (joinCRLF ∘ fun p : ℕ × Tier => tierLines p.2 p.1)
      = fun p : ℕ × Tier => p.2.to_long_textgrid_string p.1 := by
    funext p
    rw [Function.comp_apply, ← tier_to_long_eq]
  rw [htiers]
  simp [headerLines, joinCRLF, CRLF, List.append_assoc]

theorem noCRLF_append (a b : Str) (ha : noCRLF a) (hb : noCRLF b) :
    noCRLF (a ++ b) := by
  intro c hc
  rcases List.mem_append.mp hc with h | h
  · exact ha c h
  · exact hb c h

theorem numToStr_mem (q : ℚ) :
    ∀ c ∈ numToStr q, isDigitCh c = true ∨ c = '-' ∨ c = '/' := by
  intro c hc
  unfold numToStr intToStr at hc
  split at hc
  · split at hc
    · rcases List.mem_cons.mp hc with rfl | hc
      · right; left; rfl
      · exact Or.inl (natToStr_all_digits _ c hc)
    · exact Or.inl (natToStr_all_digits _ c hc)
  · split at hc
    · rcases List.mem_cons.mp hc with rfl | hc
      · right; left; rfl
      · rcases List.mem_append.mp hc with h | h
        · exact Or.inl (natToStr_all_digits _ c h)
        · rcases List.mem_cons.mp h with rfl | h
          · right; right; rfl
          · exact Or.inl (natToStr_all_digits _ c h)
    · rcases List.mem_append.mp hc with h | h
      · exact Or.inl (natToStr_all_digits _ c h)
      · rcases List.mem_cons.mp h with rfl | h
        · right; right; rfl
        · exact Or.inl (natToStr_all_digits _ c h)

theorem isWS_false_ne (c : Char) (h : isWS c = false) :
    c ≠ ' ' ∧ c ≠ '\t' ∧ c ≠ '\r' ∧ c ≠ '\n' := by
  refine ⟨?_, ?_, ?_, ?_⟩ <;> intro hc <;> subst hc <;> revert h <;> decide

theorem numToStr_char_facts (q : ℚ) :
    ∀ c ∈ numToStr q, isWS c = false ∧ c ≠ '"' ∧ c ≠ '=' := by
  intro c hc
  rcases numToStr_mem q c hc with h | rfl | rfl
  · obtain ⟨_, _, h3, h4, h5, _⟩ := isDigitCh_ne c h
    exact ⟨h5, h4, h3⟩
  · exact ⟨by decide, by decide, by decide⟩
  · exact ⟨by decide, by decide, by decide⟩

theorem noCRLF_numToStr (q : ℚ) : noCRLF (numToStr q) := by
  intro c hc
  have := (numToStr_char_facts q c hc).1
  have h4 := isWS_false_ne c this
  exact ⟨h4.2.2.1, h4.2.2.2⟩

theorem noCRLF_natToStr (n : ℕ) : noCRLF (natToStr n) := by
  intro c hc
  have hd := natToStr_all_digits n c hc
  have h4 := isWS_false_ne c (isDigitCh_ne c hd).2.2.2.2.1
  exact ⟨h4.2.2.1, h4.2.2.2⟩

theorem noCRLF_escapeQuotes (s : Str) (h : noCRLF s) : noCRLF (escapeQuotes s) := by
  intro c hc
  unfold escapeQuotes at hc
  rw [List.mem_flatMap] at hc
  obtain ⟨a, ha, hca⟩ := hc
  by_cases haq : a = '"'
  · rw [haq] at hca
    simp only [if_pos rfl] at hca
    rcases List.mem_cons.mp hca with rfl | hca
    · exact ⟨by decide, by decide⟩
    · rcases List.mem_cons.mp hca with rfl | hca
      · exact ⟨by decide, by decide⟩
      · cases hca
  · rw [if_neg haq] at hca
    rcases List.mem_cons.mp hca with rfl | hca
    · exact h c ha
    · cases hca

theorem mem_of_mem_enumFrom {α : Type} (p : ℕ × α) (j : ℕ) (l : List α)
    (h : p ∈ List.enumFrom j l) : p.2 ∈ l := by
  induction l generalizing j with
  | nil => cases h
  | cons x xs ih =>
    rw [List.enumFrom_cons] at h
    rcases List.mem_cons.mp h with rfl | h
    · simp
    · exact List.mem_cons_of_mem _ (ih (j + 1) h)

theorem cleanStr_noCRLF (s : Str) (h : cleanStr s) : noCRLF s :=
  fun c hc => ⟨(h c hc).2.1, (h c hc).2.2⟩

theorem noCRLF_itemLines (b : Bool) (i : ℕ) (it : Item) (h : noCRLF it.label) :
    ∀ l ∈ itemLines b i it, noCRLF l := by
  intro l hl
  unfold itemLines at hl
  cases b with
  | true =>
    rw [if_pos rfl] at hl
    simp only [List.mem_cons, List.not_mem_nil, or_false] at hl
    rcases hl with rfl | rfl | rfl | rfl
    · exact noCRLF_append _ _ (noCRLF_append _ _ (by decide) (noCRLF_natToStr _))
        (by decide)
    · exact noCRLF_append _ _ (noCRLF_append _ _ (by decide) (noCRLF_numToStr _))
        (by decide)
    · exact noCRLF_append _ _ (noCRLF_append _ _ (by decide) (noCRLF_numToStr _))
        (by decide)
    · exact noCRLF_append _ _
        (noCRLF_append _ _ (by decide) (noCRLF_escapeQuotes _ h)) (by decide)
  | false =>
    rw [if_neg (by decide)] at hl
    simp only [List.mem_cons, List.not_mem_nil, or_false] at hl
    rcases hl with rfl | rfl | rfl
    · exact noCRLF_append _ _ (noCRLF_append _ _ (by decide) (noCRLF_natToStr _))
        (by decide)
    · exact noCRLF_append _ _ (noCRLF_append _ _ (by decide) (noCRLF_numToStr _))
        (by decide)
    · exact noCRLF_append _ _
        (noCRLF_append _ _ (by decide) (noCRLF_escapeQuotes _ h)) (by decide)

theorem noCRLF_tierLines (t : Tier) (i : ℕ) (hname : cleanStr t.name)
    (hlabels : ∀ it ∈ t.items, cleanStr it.label) :
    ∀ l ∈ tierLines t i, noCRLF l := by
  intro l hl
  unfold tierLines at hl
  rcases List.mem_append.mp hl with hl | hl
  · simp only [List.mem_cons, List.not_mem_nil, or_false] at hl
    rcases hl with rfl | rfl | rfl | rfl | rfl | rfl
    · exact noCRLF_append _ _ (noCRLF_append _ _ (by decide) (noCRLF_natToStr _))
        (by decide)
    · refine noCRLF_append _ _ (noCRLF_append _ _ (by decide) ?_) (by decide)
      cases t.interval_tier <;> decide
    · exact noCRLF_append _ _
        (noCRLF_append _ _ (by decide) (noCRLF_escapeQuotes _ (cleanStr_noCRLF _ hname)))
        (by decide)
    · exact noCRLF_append _ _ (noCRLF_append _ _ (by decide) (noCRLF_numToStr _))
        (by decide)
    · exact noCRLF_append _ _ (noCRLF_append _ _ (by decide) (noCRLF_numToStr _))
        (by decide)
    · refine noCRLF_append _ _
        (noCRLF_append _ _ (noCRLF_append _ _ ?_ (by decide)) (noCRLF_natToStr _))
        (by decide)
      refine noCRLF_append _ _ (by decide) ?_
      cases t.interval_tier <;> decide
  · rw [List.mem_flatten] at hl
    obtain ⟨ls, hls, hl⟩ := hl
    rw [List.mem_map] at hls
    obtain ⟨p, hp, rfl⟩ := hls
    have hmem : p.2 ∈ t.items := mem_of_mem_enumFrom p 0 t.items hp
    exact noCRLF_itemLines t.interval_tier p.1 p.2
      (cleanStr_noCRLF _ (hlabels p.2 hmem)) l hl

theorem longLines_noCRLF (tg : TextGrid) (h : tg.cleanStrings) :
    ∀ l ∈ longLines tg, noCRLF l := by
  intro l hl
  unfold longLines at hl
  rcases List.mem_append.mp hl with hl | hl
  · unfold headerLines at hl
    simp only [List.mem_cons, List.not_mem_nil, or_false] at hl
    rcases hl with rfl | rfl | rfl | rfl | rfl | rfl | rfl | rfl
    · decide
    · decide
    · decide
    · exact noCRLF_append _ _ (noCRLF_append _ _ (by decide) (noCRLF_numToStr _))
        (by decide)
    · exact noCRLF_append _ _ (noCRLF_append _ _ (by decide) (noCRLF_numToStr _))
        (by decide)
    · refine noCRLF_append _ _ (noCRLF_append _ _ (by decide) ?_) (by decide)
      split <;> decide
    · exact noCRLF_append _ _ (noCRLF_append _ _ (by decide) (noCRLF_natToStr _))
        (by decide)
    · decide
  · rw [List.mem_flatten] at hl
    obtain ⟨ls, hls, hl⟩ := hl
    rw [List.mem_map] at hls
    obtain ⟨p, hp, rfl⟩ := hls
    have hmem : p.2 ∈ tg.tiers := mem_of_mem_enumFrom p 0 tg.tiers hp
    obtain ⟨hname, hlabels⟩ := h p.2 hmem
    exact noCRLF_tierLines p.2 p.1 hname hlabels l hl

theorem rustLines_serialize (tg : TextGrid) (h : tg.cleanStrings) :
    rustLines tg.to_long_textgrid_string = longLines tg :=
  by rw [to_long_eq_joinCRLF, rustLines_joinCRLF _ (longLines_noCRLF tg h)]

/-! ### C1: trimming and key-value splitting of serialized lines -/

theorem dropWhile_ws_append (pre s : Str) (h : ∀ c ∈ pre, isWS c = true) :
    (pre ++ s).dropWhile isWS = s.dropWhile isWS := by
  induction pre with
  | nil => rfl
  | cons c cs ih =>
    rw [List.cons_append, List.dropWhile_cons, if_pos (h c (by simp))]
    exact ih (fun x hx => h x (by simp [hx]))

theorem trimStart_append_of_ne_nil (P X : Str) (h : trimStart P ≠ []) :
    trimStart (P ++ X) = trimStart P ++ X := by
  induction P with
  | nil => exact absurd rfl h
  | cons c cs ih =>
    unfold trimStart at h ih ⊢
    by_cases hw : isWS c = true
    · rw [List.cons_append, List.dropWhile_cons, List.dropWhile_cons,
        if_pos hw, if_pos hw]
      rw [List.dropWhile_cons, if_pos hw] at h
      exact ih h
    · rw [List.cons_append, List.dropWhile_cons, List.dropWhile_cons,
        if_neg hw, if_neg hw, List.cons_append]

theorem trimEnd_append_ws (s b : Str) (h : ∀ c ∈ b, isWS c = true) :
    trimEnd (s ++ b) = trimEnd s := by
  unfold trimEnd
  rw [List.reverse_append, dropWhile_ws_append _ _ (fun c hc => h c (by
    rw [List.mem_reverse] at hc
    exact hc))]

theorem trimEnd_of_last_nws (s : Str) (c : Char) (h : s.getLast? = some c)
    (hc : isWS c = false) : trimEnd s = s := by
  have hrev : s.reverse.head? = some c := by
    rw [List.head?_reverse]
    exact h
  unfold trimEnd
  cases hs : s.reverse with
  | nil => rw [hs] at hrev; cases hrev
  | cons x xs =>
    rw [hs] at hrev
    cases hrev
    rw [List.dropWhile_cons, if_neg (by simp [hc]), ← hs, List.reverse_reverse]

theorem trim_pv (P v : Str) (hP : trimStart P ≠ []) (hv : v ≠ [])
    (hvlast : ∀ c, v.getLast? = some c → isWS c = false) :
    trim (P ++ v) = trimStart P ++ v := by
  unfold trim
  rw [trimStart_append_of_ne_nil P v hP]
  obtain ⟨c, hc⟩ : ∃ c, v.getLast? = some c := by
    cases hg : v.getLast? with
    | none => exact absurd (List.getLast?_eq_none_iff.mp hg) hv
    | some c => exact ⟨c, rfl⟩
  have : (trimStart P ++ v).getLast? = some c := by
    rw [List.getLast?_append_of_ne_nil _ hv]
    exact hc
  exact trimEnd_of_last_nws _ c this (hvlast c hc)

theorem trim_append_ws (X b : Str) (hb : ∀ c ∈ b, isWS c = true)
    (hX : trimStart X ≠ []) : trim (X ++ b) = trim X := by
  unfold trim
  rw [trimStart_append_of_ne_nil X b hX, trimEnd_append_ws _ _ hb]

theorem trim_of_clean_ends (s : Str)
    (hhead : ∀ c, s.head? = some c → isWS c = false)
    (hlast : ∀ c, s.getLast? = some c → isWS c = false) : trim s = s := by
  cases s with
  | nil => rfl
  | cons c cs =>
    unfold trim trimStart
    rw [List.dropWhile_cons, if_neg (by simp [hhead c rfl])]
    obtain ⟨d, hd⟩ : ∃ d, (c :: cs).getLast? = some d := by
      cases hg : (c :: cs).getLast? with
      | none => rw [List.getLast?_eq_none_iff] at hg; cases hg
      | some d => exact ⟨d, rfl⟩
    exact trimEnd_of_last_nws _ d hd (hlast d hd)

theorem parse_kv_key_val (k v : Str) (hkeq : '=' ∉ k) (hkne : k ≠ [])
    (hkhead : ∀ c, k.head? = some c → isWS c = false)
    (hklast : ∀ c, k.getLast? = some c → isWS c = false)
    (hv : v ≠ []) (hvhead : ∀ c, v.head? = some c → isWS c = false)
    (hvlast : ∀ c, v.getLast? = some c → isWS c = false) :
    parse_kv ((k ++ [' ']) ++ '=' :: ' ' :: v) = some (k, v) := by
  unfold parse_kv
  rw [splitFirst_append '=' (k ++ [' ']) (' ' :: v) (by
    intro hc
    rcases List.mem_append.mp hc with h | h
    · exact hkeq h
    · simp at h)]
  dsimp only
  have h1 : trim (k ++ [' ']) = k := by
    rw [trim_append_ws k [' '] (by decide) (by
      cases k with
      | nil => exact absurd rfl hkne
      | cons c cs =>
        unfold trimStart
        rw [List.dropWhile_cons, if_neg (by simp [hkhead c rfl])]
        simp)]
    exact trim_of_clean_ends k hkhead hklast
  have h2 : trim (' ' :: v) = v := by
    unfold trim trimStart
    rw [List.dropWhile_cons, if_pos (by decide)]
    have : v.dropWhile isWS = v := by
      cases v with
      | nil => rfl
      | cons c cs => rw [List.dropWhile_cons, if_neg (by simp [hvhead c rfl])]
    rw [this]
    obtain ⟨d, hd⟩ : ∃ d, v.getLast? = some d := by
      cases hg : v.getLast? with
      | none => exact absurd (List.getLast?_eq_none_iff.mp hg) hv
      | some d => exact ⟨d, rfl⟩
    exact trimEnd_of_last_nws _ d hd (hvlast d hd)
  rw [h1, h2]

theorem isPrefixOf_append_self (P X : Str) : P.isPrefixOf (P ++ X) = true :=
  List.isPrefixOf_iff_prefix.mpr (List.prefix_append P X)

theorem isPrefixOf_append_cancel (K a b : Str) :
    (K ++ a).isPrefixOf (K ++ b) = a.isPrefixOf b := by
  induction K with
  | nil => rfl
  | cons c cs ih => simp [List.isPrefixOf, ih]

theorem not_isPrefixOf_append (P K rest : Str) (h1 : P.isPrefixOf K = false)
    (h2 : K.isPrefixOf P = false) : P.isPrefixOf (K ++ rest) = false := by
  rw [← Bool.not_eq_true]
  intro hc
  rw [List.isPrefixOf_iff_prefix] at hc
  rcases le_or_lt P.length K.length with hlen | hlen
  · have hP : P <+: K := by
      rw [List.prefix_iff_eq_take] at hc
      exact List.prefix_iff_eq_take.mpr
        (hc.trans (List.take_append_of_le_length hlen))
    rw [← List.isPrefixOf_iff_prefix] at hP
    rw [hP] at h1
    cases h1
  · have hK : K <+: P := by
      obtain ⟨t, ht⟩ := hc
      have h3 : List.take K.length (K ++ rest) = K := by
        rw [List.take_append_of_le_length (le_refl _), List.take_length]
      rw [← ht, List.take_append_of_le_length hlen.le] at h3
      exact List.prefix_iff_eq_take.mpr h3.symm
    rw [← List.isPrefixOf_iff_prefix] at hK
    rw [hK] at h2
    cases h2

theorem numToStr_ne_nil (q : ℚ) : numToStr q ≠ [] := by
  unfold numToStr intToStr
  split
  · split
    · simp
    · exact natToStr_ne_nil _
  · split
    · simp
    · simp [natToStr_ne_nil]

theorem last_nws_of_all (s : Str) (h : ∀ c ∈ s, isWS c = false) :
    ∀ c, s.getLast? = some c → isWS c = false := by
  intro c hc
  obtain ⟨hne, hceq⟩ := List.mem_getLast?_eq_getLast hc
  exact h c (hceq ▸ List.getLast_mem hne)

theorem head_nws_of_all (s : Str) (h : ∀ c ∈ s, isWS c = false) :
    ∀ c, s.head? = some c → isWS c = false := by
  intro c hc
  cases s with
  | nil => cases hc
  | cons x xs =>
    cases hc
    exact h c (by simp)

theorem numToStr_all_nws (q : ℚ) : ∀ c ∈ numToStr q, isWS c = false :=
  fun c hc => (numToStr_char_facts q c hc).1

theorem natToStr_all_nws (n : ℕ) : ∀ c ∈ natToStr n, isWS c = false := by
  intro c hc
  exact (isDigitCh_ne c (natToStr_all_digits n c hc)).2.2.2.2.1

theorem stepLong_kv_header (cur : TextGrid) (line : Str) (hm : notMarker line) :
    stepLong (PState.header, cur) line = some (PState.header, parse_tg_kv line cur) := by
  unfold stepLong
  rw [if_neg (by simp [hm.1]), if_neg (by simp [hm.2.1]),
    if_neg (by simp [hm.2.2.1, hm.2.2.2])]

theorem stepLong_kv_tier (cur : TextGrid) (line : Str) (hm : notMarker line) :
    stepLong (PState.tier, cur) line
      = (withLastTier cur (parse_tier_kv line)).map (fun tg2 => (PState.tier, tg2)) := by
  unfold stepLong
  rw [if_neg (by simp [hm.1]), if_neg (by simp [hm.2.1]),
    if_neg (by simp [hm.2.2.1, hm.2.2.2])]

theorem stepLong_kv_item (cur : TextGrid) (line : Str) (hm : notMarker line) :
    stepLong (PState.item, cur) line
      = (withLastItemOfLastTier cur (parse_item_kv line)).map
          (fun tg2 => (PState.item, tg2)) := by
  unfold stepLong
  rw [if_neg (by simp [hm.1]), if_neg (by simp [hm.2.1]),
    if_neg (by simp [hm.2.2.1, hm.2.2.2])]

theorem stepLong_kv_tierList (cur : TextGrid) (line : Str) (hm : notMarker line) :
    stepLong (PState.tierList, cur) line = some (PState.tierList, cur) := by
  unfold stepLong
  rw [if_neg (by simp [hm.1]), if_neg (by simp [hm.2.1]),
    if_neg (by simp [hm.2.2.1, hm.2.2.2])]

/-- A key-value line in canonical split form is not a marker line, provided
the four decidable prefix disagreements with its key part hold. -/
theorem notMarker_kv (k v : Str)
    (h1 : (str "item []").isPrefixOf (k ++ [' ']) = false)
    (h1b : (k ++ [' ']).isPrefixOf (str "item []") = false)
    (h2 : (str "item [").isPrefixOf (k ++ [' ']) = false)
    (h2b : (k ++ [' ']).isPrefixOf (str "item [") = false)
    (h3 : (str "intervals [").isPrefixOf (k ++ [' ']) = false)
    (h3b : (k ++ [' ']).isPrefixOf (str "intervals [") = false)
    (h4 : (str "points [").isPrefixOf (k ++ [' ']) = false)
    (h4b : (k ++ [' ']).isPrefixOf (str "points [") = false) :
    notMarker ((k ++ [' ']) ++ '=' :: ' ' :: v) :=
  ⟨not_isPrefixOf_append _ _ _ h1 h1b,
   not_isPrefixOf_append _ _ _ h2 h2b,
   not_isPrefixOf_append _ _ _ h3 h3b,
   not_isPrefixOf_append _ _ _ h4 h4b⟩

/-- Trimming an indented key-value line with a trailing space yields the
canonical split form. -/
theorem trim_kv_line (pre k v : Str)
    (hpre : ∀ c ∈ pre, isWS c = true)
    (hk2 : k ≠ [])
    (hk3 : ∀ c, k.head? = some c → isWS c = false)
    (hv : v ≠ [])
    (hvl : ∀ c, v.getLast? = some c → isWS c = false) :
    trim ((pre ++ ((k ++ [' ']) ++ '=' :: ' ' :: v)) ++ str " ")
      = (k ++ [' ']) ++ '=' :: ' ' :: v := by
  have hx : trimStart (pre ++ ((k ++ [' ']) ++ '=' :: ' ' :: v))
      = (k ++ [' ']) ++ '=' :: ' ' :: v := by
    unfold trimStart
    rw [dropWhile_ws_append _ _ hpre]
    cases k with
    | nil => exact absurd rfl hk2
    | cons c cs =>
      rw [List.cons_append, List.cons_append, List.dropWhile_cons,
        if_neg (by simp [hk3 c rfl])]
  rw [trim_append_ws _ _ (by decide) (by rw [hx]; simp)]
  unfold trim
  rw [hx]
  have hlast : (((k ++ [' ']) ++ '=' :: ' ' :: v)).getLast? = v.getLast? := by
    rw [List.getLast?_append_of_ne_nil _ (by simp)]
    rw [show ('=' :: ' ' :: v : Str) = ['=', ' '] ++ v from rfl]
    rw [List.getLast?_append_of_ne_nil _ hv]
  obtain ⟨d, hd⟩ : ∃ d, v.getLast? = some d := by
    cases hg : v.getLast? with
    | none => exact absurd (List.getLast?_eq_none_iff.mp hg) hv
    | some d => exact ⟨d, rfl⟩
  exact trimEnd_of_last_nws _ d (by rw [hlast]; exact hd) (hvl d hd)

theorem escapeQuotes_of_clean (s : Str) (h : ∀ c ∈ s, c ≠ '"') :
    escapeQuotes s = s := by
  induction s with
  | nil => rfl
  | cons c cs ih =>
    unfold escapeQuotes at ih ⊢
    rw [List.flatMap_cons, if_neg (h c (by simp)), ih (fun x hx => h x (by simp [hx]))]
    rfl

theorem dropWhile_eq_self_of_head (p : Char → Bool) (l : Str)
    (h : ∀ c, l.head? = some c → p c = false) : l.dropWhile p = l := by
  cases l with
  | nil => rfl
  | cons c cs => rw [List.dropWhile_cons, if_neg (by simp [h c rfl])]

theorem trimMatches_quote_clean (s : Str) (hs : ∀ c ∈ s, c ≠ '"') :
    trimMatches '"' (('"' :: s) ++ ['"']) = s := by
  unfold trimMatches
  rw [List.cons_append, List.dropWhile_cons, if_pos (by decide)]
  cases s with
  | nil => rfl
  | cons c cs =>
    rw [List.cons_append, List.dropWhile_cons,
      if_neg (by simp [hs c (by simp)]), ← List.cons_append, List.reverse_append]
    rw [show (['"'] : Str).reverse = ['"'] from rfl, List.cons_append, List.nil_append,
      List.dropWhile_cons, if_pos (by decide)]
    rw [dropWhile_eq_self_of_head _ _ (by
      intro d hd
      have : d ∈ (c :: cs : Str).reverse := by
        cases hr : (c :: cs : Str).reverse with
        | nil => rw [hr] at hd; cases hd
        | cons x xs => rw [hr] at hd; cases hd; simp
      rw [List.mem_reverse] at this
      simp [hs d this])]
    rw [List.reverse_reverse]

theorem quoted_ne_nil (s : Str) : ('"' :: s) ++ ['"'] ≠ ([] : Str) := by simp

theorem quoted_head_nws (s : Str) :
    ∀ c, (('"' :: s) ++ ['"'] : Str).head? = some c → isWS c = false := by
  intro c hc
  rw [List.cons_append] at hc
  cases hc
  decide

theorem quoted_last_nws (s : Str) :
    ∀ c, (('"' :: s) ++ ['"'] : Str).getLast? = some c → isWS c = false := by
  intro c hc
  rw [List.getLast?_concat] at hc
  cases hc
  decide

theorem parse_float_numToStr (q : ℚ) : parse_float (numToStr q) = q := by
  unfold parse_float
  rw [strToNum_numToStr]
  rfl

theorem parse_uint_natToStr (n : ℕ) : parse_uint (natToStr n) = n := by
  unfold parse_uint
  rw [parseDigits_natToStr]
  rfl

theorem parse_tg_kv_xmin (v : Str) (cur : TextGrid) (hv : v ≠ [])
    (hvh : ∀ c, v.head? = some c → isWS c = false)
    (hvl : ∀ c, v.getLast? = some c → isWS c = false) :
    parse_tg_kv ((str "xmin" ++ [' ']) ++ '=' :: ' ' :: v) cur
      = { cur with tmin := parse_float v } := by
  unfold parse_tg_kv
  rw [parse_kv_key_val _ _ (by decide) (by decide) (by intro c hc; cases hc; decide)
    (by intro c hc; cases hc; decide) hv hvh hvl]
  dsimp only
  rw [if_pos rfl]

theorem parse_tg_kv_xmax (v : Str) (cur : TextGrid) (hv : v ≠ [])
    (hvh : ∀ c, v.head? = some c → isWS c = false)
    (hvl : ∀ c, v.getLast? = some c → isWS c = false) :
    parse_tg_kv ((str "xmax" ++ [' ']) ++ '=' :: ' ' :: v) cur
      = { cur with tmax := parse_float v } := by
  unfold parse_tg_kv
  rw [parse_kv_key_val _ _ (by decide) (by decide) (by intro c hc; cases hc; decide)
    (by intro c hc; cases hc; decide) hv hvh hvl]
  dsimp only
  rw [if_neg (by decide), if_pos rfl]

theorem parse_tg_kv_size (v : Str) (cur : TextGrid) (hv : v ≠ [])
    (hvh : ∀ c, v.head? = some c → isWS c = false)
    (hvl : ∀ c, v.getLast? = some c → isWS c = false) :
    parse_tg_kv ((str "size" ++ [' ']) ++ '=' :: ' ' :: v) cur
      = { cur with size := parse_uint v } := by
  unfold parse_tg_kv
  rw [parse_kv_key_val _ _ (by decide) (by decide) (by intro c hc; cases hc; decide)
    (by intro c hc; cases hc; decide) hv hvh hvl]
  dsimp only
  rw [if_neg (by decide), if_neg (by decide), if_pos rfl]

theorem parse_tier_kv_name (s : Str) (T : Tier) (hs : ∀ c ∈ s, c ≠ '"') :
    parse_tier_kv ((str "name" ++ [' ']) ++ '=' :: ' ' :: (('"' :: s) ++ ['"'])) T
      = some { T with name := s } := by
  unfold parse_tier_kv
  rw [parse_kv_key_val _ _ (by decide) (by decide) (by intro c hc; cases hc; decide)
    (by intro c hc; cases hc; decide) (quoted_ne_nil s) (quoted_head_nws s)
    (quoted_last_nws s)]
  dsimp only
  rw [if_neg (by decide), if_pos rfl]
  unfold parse_str
  rw [trimMatches_quote_clean s hs]

theorem parse_tier_kv_isize (v : Str) (T : Tier) (hv : v ≠ [])
    (hvh : ∀ c, v.head? = some c → isWS c = false)
    (hvl : ∀ c, v.getLast? = some c → isWS c = false) :
    parse_tier_kv ((str "intervals: size" ++ [' ']) ++ '=' :: ' ' :: v) T
      = some { T with size := parse_uint v } := by
  unfold parse_tier_kv
  rw [parse_kv_key_val _ _ (by decide) (by decide) (by intro c hc; cases hc; decide)
    (by intro c hc; cases hc; decide) hv hvh hvl]
  dsimp only
  rw [if_neg (by decide), if_neg (by decide), if_pos rfl]

theorem parse_tier_kv_psize (v : Str) (T : Tier) (hv : v ≠ [])
    (hvh : ∀ c, v.head? = some c → isWS c = false)
    (hvl : ∀ c, v.getLast? = some c → isWS c = false) :
    parse_tier_kv ((str "points: size" ++ [' ']) ++ '=' :: ' ' :: v) T
      = some { T with size := parse_uint v } := by
  unfold parse_tier_kv
  rw [parse_kv_key_val _ _ (by decide) (by decide) (by intro c hc; cases hc; decide)
    (by intro c hc; cases hc; decide) hv hvh hvl]
  dsimp only
  rw [if_neg (by decide), if_neg (by decide), if_neg (by decide), if_pos rfl]

theorem parse_tier_kv_xmin (v : Str) (T : Tier) (hv : v ≠ [])
    (hvh : ∀ c, v.head? = some c → isWS c = false)
    (hvl : ∀ c, v.getLast? = some c → isWS c = false) :
    parse_tier_kv ((str "xmin" ++ [' ']) ++ '=' :: ' ' :: v) T
      = some { T with tmin := parse_float v } := by
  unfold parse_tier_kv
  rw [parse_kv_key_val _ _ (by decide) (by decide) (by intro c hc; cases hc; decide)
    (by intro c hc; cases hc; decide) hv hvh hvl]
  dsimp only
  rw [if_neg (by decide), if_neg (by decide), if_neg (by decide), if_neg (by decide),
    if_pos rfl]

theorem parse_tier_kv_xmax (v : Str) (T : Tier) (hv : v ≠ [])
    (hvh : ∀ c, v.head? = some c → isWS c = false)
    (hvl : ∀ c, v.getLast? = some c → isWS c = false) :
    parse_tier_kv ((str "xmax" ++ [' ']) ++ '=' :: ' ' :: v) T
      = some { T with tmax := parse_float v } := by
  unfold parse_tier_kv
  rw [parse_kv_key_val _ _ (by decide) (by decide) (by intro c hc; cases hc; decide)
    (by intro c hc; cases hc; decide) hv hvh hvl]
  dsimp only
  rw [if_neg (by decide), if_neg (by decide), if_neg (by decide), if_neg (by decide),
    if_neg (by decide), if_pos rfl]

theorem parse_item_kv_xmin (v : Str) (it : Item) (hv : v ≠ [])
    (hvh : ∀ c, v.head? = some c → isWS c = false)
    (hvl : ∀ c, v.getLast? = some c → isWS c = false) :
    parse_item_kv ((str "xmin" ++ [' ']) ++ '=' :: ' ' :: v) it
      = { it with tmin := parse_float v } := by
  unfold parse_item_kv
  rw [parse_kv_key_val _ _ (by decide) (by decide) (by intro c hc; cases hc; decide)
    (by intro c hc; cases hc; decide) hv hvh hvl]
  dsimp only
  rw [if_pos rfl]

theorem parse_item_kv_xmax (v : Str) (it : Item) (hv : v ≠ [])
    (hvh : ∀ c, v.head? = some c → isWS c = false)
    (hvl : ∀ c, v.getLast? = some c → isWS c = false) :
    parse_item_kv ((str "xmax" ++ [' ']) ++ '=' :: ' ' :: v) it
      = { it with tmax := parse_float v } := by
  unfold parse_item_kv
  rw [parse_kv_key_val _ _ (by decide) (by decide) (by intro c hc; cases hc; decide)
    (by intro c hc; cases hc; decide) hv hvh hvl]
  dsimp only
  rw [if_neg (by decide), if_pos rfl]

theorem parse_item_kv_text (s : Str) (it : Item) (hs : ∀ c ∈ s, c ≠ '"') :
    parse_item_kv ((str "text" ++ [' ']) ++ '=' :: ' ' :: (('"' :: s) ++ ['"'])) it
      = { it with label := s } := by
  unfold parse_item_kv
  rw [parse_kv_key_val _ _ (by decide) (by decide) (by intro c hc; cases hc; decide)
    (by intro c hc; cases hc; decide) (quoted_ne_nil s) (quoted_head_nws s)
    (quoted_last_nws s)]
  dsimp only
  rw [if_neg (by decide), if_neg (by decide), if_pos rfl]
  unfold parse_str
  rw [trimMatches_quote_clean s hs]

theorem parse_item_kv_number (v : Str) (it : Item) (hv : v ≠ [])
    (hvh : ∀ c, v.head? = some c → isWS c = false)
    (hvl : ∀ c, v.getLast? = some c → isWS c = false) :
    parse_item_kv ((str "number" ++ [' ']) ++ '=' :: ' ' :: v) it
      = { it with tmin := parse_float v, tmax := parse_float v } := by
  unfold parse_item_kv
  rw [parse_kv_key_val _ _ (by decide) (by decide) (by intro c hc; cases hc; decide)
    (by intro c hc; cases hc; decide) hv hvh hvl]
  dsimp only
  rw [if_neg (by decide), if_neg (by decide), if_neg (by decide), if_pos rfl]

theorem parse_item_kv_mark (s : Str) (it : Item) (hs : ∀ c ∈ s, c ≠ '"') :
    parse_item_kv ((str "mark" ++ [' ']) ++ '=' :: ' ' :: (('"' :: s) ++ ['"'])) it
      = { it with label := s } := by
  unfold parse_item_kv
  rw [parse_kv_key_val _ _ (by decide) (by decide) (by intro c hc; cases hc; decide)
    (by intro c hc; cases hc; decide) (quoted_ne_nil s) (quoted_head_nws s)
    (quoted_last_nws s)]
  dsimp only
  rw [if_neg (by decide), if_neg (by decide), if_neg (by decide), if_neg (by decide),
    if_pos rfl]
  unfold parse_str
  rw [trimMatches_quote_clean s hs]

theorem withLastTier_concat (cur : TextGrid) (xs : List Tier) (T : Tier)
    (f : Tier → Option Tier) (hT : cur.tiers = xs ++ [T]) :
    withLastTier cur f = (f T).map (fun t2 => { cur with tiers := xs ++ [t2] }) := by
  unfold withLastTier
  rw [hT, List.getLast?_concat]
  dsimp only
  simp only [List.dropLast_concat]

theorem withLastItemOfLastTier_concat (cur : TextGrid) (xs : List Tier) (T : Tier)
    (ys : List Item) (it : Item) (f : Item → Item)
    (hT : cur.tiers = xs ++ [T]) (hI : T.items = ys ++ [it]) :
    withLastItemOfLastTier cur f
      = some { cur with tiers := xs ++ [{ T with items := ys ++ [f it] }] } := by
  unfold withLastItemOfLastTier
  rw [withLastTier_concat cur xs T _ hT, hI, List.getLast?_concat]
  dsimp only
  simp only [List.dropLast_concat, Option.map_some']

theorem foldlM_cons_some (f : (PState × TextGrid) → Str → Option (PState × TextGrid))
    (a : Str) (l : List Str) (b c : PState × TextGrid) (h : f b a = some c) :
    List.foldlM f b (a :: l) = List.foldlM f c l := by
  rw [List.foldlM_cons, h]
  rfl

theorem foldlM_append_some (f : (PState × TextGrid) → Str → Option (PState × TextGrid))
    (l1 l2 : List Str) (b c : PState × TextGrid) (h : List.foldlM f b l1 = some c) :
    List.foldlM f b (l1 ++ l2) = List.foldlM f c l2 := by
  rw [List.foldlM_append, h]
  rfl

theorem step_header_filetype (cur : TextGrid) :
    stepLong (PState.header, cur) (trim (str "File type = \"ooTextFile\""))
      = some (PState.header, cur) := rfl

theorem step_header_objclass (cur : TextGrid) :
    stepLong (PState.header, cur) (trim (str "Object class = \"TextGrid\""))
      = some (PState.header, cur) := rfl

theorem step_header_blank (cur : TextGrid) :
    stepLong (PState.header, cur) (trim []) = some (PState.header, cur) := rfl

theorem step_header_tiers (cur : TextGrid) (w : Str)
    (hw : w = str "<exists>" ∨ w = str "<absent>") :
    stepLong (PState.header, cur) (trim ((str "tiers? " ++ w) ++ str " "))
      = some (PState.header, cur) := by
  rcases hw with rfl | rfl <;> rfl

theorem step_item_list_marker (S : PState) (cur : TextGrid) :
    stepLong (S, cur) (trim (str "item []: ")) = some (PState.tierList, cur) := rfl

theorem step_header_xmin (cur : TextGrid) (q : ℚ) :
    stepLong (PState.header, cur) (trim ((str "xmin = " ++ numToStr q) ++ str " "))
      = some (PState.header, { cur with tmin := q }) := by
  have hline : (str "xmin = " ++ numToStr q) ++ str " "
      = ([] ++ ((str "xmin" ++ [' ']) ++ '=' :: ' ' :: numToStr q)) ++ str " " := rfl
  rw [hline, trim_kv_line [] (str "xmin") (numToStr q) (by intro c hc; cases hc)
    (by decide) (by intro c hc; cases hc; decide) (numToStr_ne_nil q)
    (last_nws_of_all _ (numToStr_all_nws q))]
  rw [stepLong_kv_header cur _ (notMarker_kv _ _ (by decide) (by decide) (by decide)
    (by decide) (by decide) (by decide) (by decide) (by decide))]
  rw [parse_tg_kv_xmin (numToStr q) cur (numToStr_ne_nil q)
    (head_nws_of_all _ (numToStr_all_nws q)) (last_nws_of_all _ (numToStr_all_nws q))]
  rw [parse_float_numToStr]

theorem step_header_xmax (cur : TextGrid) (q : ℚ) :
    stepLong (PState.header, cur) (trim ((str "xmax = " ++ numToStr q) ++ str " "))
      = some (PState.header, { cur with tmax := q }) := by
  have hline : (str "xmax = " ++ numToStr q) ++ str " "
      = ([] ++ ((str "xmax" ++ [' ']) ++ '=' :: ' ' :: numToStr q)) ++ str " " := rfl
  rw [hline, trim_kv_line [] (str "xmax") (numToStr q) (by intro c hc; cases hc)
    (by decide) (by intro c hc; cases hc; decide) (numToStr_ne_nil q)
    (last_nws_of_all _ (numToStr_all_nws q))]
  rw [stepLong_kv_header cur _ (notMarker_kv _ _ (by decide) (by decide) (by decide)
    (by decide) (by decide) (by decide) (by decide) (by decide))]
  rw [parse_tg_kv_xmax (numToStr q) cur (numToStr_ne_nil q)
    (head_nws_of_all _ (numToStr_all_nws q)) (last_nws_of_all _ (numToStr_all_nws q))]
  rw [parse_float_numToStr]

theorem step_header_size (cur : TextGrid) (n : ℕ) :
    stepLong (PState.header, cur) (trim ((str "size = " ++ natToStr n) ++ str " "))
      = some (PState.header, { cur with size := n }) := by
  have hline : (str "size = " ++ natToStr n) ++ str " "
      = ([] ++ ((str "size" ++ [' ']) ++ '=' :: ' ' :: natToStr n)) ++ str " " := rfl
  rw [hline, trim_kv_line [] (str "size") (natToStr n) (by intro c hc; cases hc)
    (by decide) (by intro c hc; cases hc; decide) (natToStr_ne_nil n)
    (last_nws_of_all _ (natToStr_all_nws n))]
  rw [stepLong_kv_header cur _ (notMarker_kv _ _ (by decide) (by decide) (by decide)
    (by decide) (by decide) (by decide) (by decide) (by decide))]
  rw [parse_tg_kv_size (natToStr n) cur (natToStr_ne_nil n)
    (head_nws_of_all _ (natToStr_all_nws n)) (last_nws_of_all _ (natToStr_all_nws n))]
  rw [parse_uint_natToStr]

theorem trim_marker_line (pre K suf : Str) (n : ℕ) (hpre : ∀ c ∈ pre, isWS c = true)
    (hK : K.dropWhile isWS = K) (hKne : K ≠ []) (hsuf : suf = str "]:") :
    trim ((pre ++ K ++ natToStr n) ++ suf) = K ++ (natToStr n ++ suf) := by
  subst hsuf
  rw [List.append_assoc]
  rw [trim_pv (pre ++ K) (natToStr n ++ str "]:") (by
      unfold trimStart
      rw [dropWhile_ws_append _ _ hpre, hK]
      exact hKne)
    (by simp; intro h; decide) (by
      intro c hc
      rw [List.getLast?_append_of_ne_nil _ (by decide)] at hc
      cases hc
      decide)]
  unfold trimStart
  rw [dropWhile_ws_append _ _ hpre, hK]

theorem marker_not_prefix_ne (P K suf : Str) (n : ℕ) (h1 : P.isPrefixOf K = false)
    (h2 : K.isPrefixOf P = false) :
    P.isPrefixOf (K ++ (natToStr n ++ suf)) = false :=
  not_isPrefixOf_append P K _ h1 h2

theorem item_bracket_not_pref (n : ℕ) (suf : Str) :
    (str "item []").isPrefixOf (str "item [" ++ (natToStr n ++ suf)) = false := by
  rw [show str "item []" = str "item [" ++ [']'] from rfl, isPrefixOf_append_cancel]
  obtain ⟨c, cs, hc⟩ := List.exists_cons_of_ne_nil (natToStr_ne_nil n)
  rw [hc, List.cons_append]
  have hd : isDigitCh c = true := natToStr_all_digits n c (by rw [hc]; simp)
  have hne : c ≠ ']' := (isDigitCh_ne c hd).2.2.2.2.2
  simp [List.isPrefixOf, Ne.symm hne]

theorem step_tier_marker (S : PState) (cur : TextGrid) (n : ℕ) :
    stepLong (S, cur) (trim ((str "    item [" ++ natToStr (n + 1)) ++ str "]:"))
      = some (PState.tier, cur.add_empty_tier) := by
  have hline : (str "    item [" ++ natToStr (n + 1)) ++ str "]:"
      = (str "    " ++ str "item [" ++ natToStr (n + 1)) ++ str "]:" := rfl
  rw [hline, trim_marker_line (str "    ") (str "item [") (str "]:") (n + 1)
    (by decide) (by decide) (by decide) rfl]
  unfold stepLong
  rw [if_neg (by simp [item_bracket_not_pref]),
    if_pos (by simp [isPrefixOf_append_self])]

theorem step_interval_marker (S : PState) (cur : TextGrid) (xs : List Tier) (T : Tier)
    (n : ℕ) (hT : cur.tiers = xs ++ [T]) :
    stepLong (S, cur) (trim ((str "        intervals [" ++ natToStr (n + 1)) ++ str "]:"))
      = some (PState.item, { cur with tiers := xs ++ [T.add_empty_item] }) := by
  have hline : (str "        intervals [" ++ natToStr (n + 1)) ++ str "]:"
      = (str "        " ++ str "intervals [" ++ natToStr (n + 1)) ++ str "]:" := rfl
  rw [hline, trim_marker_line (str "        ") (str "intervals [") (str "]:") (n + 1)
    (by decide) (by decide) (by decide) rfl]
  unfold stepLong
  rw [if_neg (by simp [marker_not_prefix_ne (str "item []") (str "intervals [") (str "]:") (n + 1) (by decide) (by decide)]),
    if_neg (by simp [marker_not_prefix_ne (str "item [") (str "intervals [") (str "]:") (n + 1) (by decide) (by decide)]),
    if_pos (Or.inl (by simp [isPrefixOf_append_self]))]
  rw [withLastTier_concat cur xs T _ hT]
  rfl

theorem step_points_marker (S : PState) (cur : TextGrid) (xs : List Tier) (T : Tier)
    (n : ℕ) (hT : cur.tiers = xs ++ [T]) :
    stepLong (S, cur) (trim ((str "        points [" ++ natToStr (n + 1)) ++ str "]:"))
      = some (PState.item, { cur with tiers := xs ++ [T.add_empty_item] }) := by
  have hline : (str "        points [" ++ natToStr (n + 1)) ++ str "]:"
      = (str "        " ++ str "points [" ++ natToStr (n + 1)) ++ str "]:" := rfl
  rw [hline, trim_marker_line (str "        ") (str "points [") (str "]:") (n + 1)
    (by decide) (by decide) (by decide) rfl]
  unfold stepLong
  rw [if_neg (by simp [marker_not_prefix_ne (str "item []") (str "points [") (str "]:") (n + 1) (by decide) (by decide)]),
    if_neg (by simp [marker_not_prefix_ne (str "item [") (str "points [") (str "]:") (n + 1) (by decide) (by decide)]),
    if_pos (Or.inr (by simp [isPrefixOf_append_self]))]
  rw [withLastTier_concat cur xs T _ hT]
  rfl

theorem step_tier_class (cur : TextGrid) (xs : List Tier) (T : Tier) (b : Bool)
    (hT : cur.tiers = xs ++ [T]) :
    stepLong (PState.tier, cur)
        (trim ((str "        class = \"" ++ (if b then str "IntervalTier" else str "TextTier"))
          ++ str "\" "))
      = some (PState.tier, { cur with tiers := xs ++ [{ T with interval_tier := b }] }) := by
  cases b
  · show stepLong (PState.tier, cur)
        (trim ((str "        class = \"" ++ str "TextTier") ++ str "\" ")) = _
    rw [show trim ((str "        class = \"" ++ str "TextTier") ++ str "\" ")
        = str "class = \"TextTier\"" from rfl]
    rw [stepLong_kv_tier cur _ ⟨by decide, by decide, by decide, by decide⟩]
    rw [withLastTier_concat cur xs T _ hT]
    rfl
  · show stepLong (PState.tier, cur)
        (trim ((str "        class = \"" ++ str "IntervalTier") ++ str "\" ")) = _
    rw [show trim ((str "        class = \"" ++ str "IntervalTier") ++ str "\" ")
        = str "class = \"IntervalTier\"" from rfl]
    rw [stepLong_kv_tier cur _ ⟨by decide, by decide, by decide, by decide⟩]
    rw [withLastTier_concat cur xs T _ hT]
    rfl

theorem step_tier_name (cur : TextGrid) (xs : List Tier) (T : Tier) (s : Str)
    (hT : cur.tiers = xs ++ [T]) (hs : ∀ c ∈ s, c ≠ '"') :
    stepLong (PState.tier, cur)
        (trim ((str "        name = \"" ++ escapeQuotes s) ++ str "\" "))
      = some (PState.tier, { cur with tiers := xs ++ [{ T with name := s }] }) := by
  rw [escapeQuotes_of_clean s hs]
  have hline : (str "        name = \"" ++ s) ++ str "\" "
      = (str "        " ++ ((str "name" ++ [' ']) ++ '=' :: ' ' :: (('"' :: s) ++ ['"'])))
          ++ str " " :=
    (List.append_assoc (str "        name = \"") s (str "\" ")).trans
      (congrArg (fun z => str "        name = \"" ++ z)
        (List.append_assoc s ['"'] [' ']).symm)
  rw [hline, trim_kv_line (str "        ") (str "name") (('"' :: s) ++ ['"'])
    (by decide) (by decide) (by intro c hc; cases hc; decide)
    (quoted_ne_nil s) (quoted_last_nws s)]
  rw [stepLong_kv_tier cur _ (notMarker_kv _ _ (by decide) (by decide) (by decide)
    (by decide) (by decide) (by decide) (by decide) (by decide))]
  rw [withLastTier_concat cur xs T _ hT]
  rw [parse_tier_kv_name s T hs]
  rfl

theorem step_tier_xmin (cur : TextGrid) (xs : List Tier) (T : Tier) (q : ℚ)
    (hT : cur.tiers = xs ++ [T]) :
    stepLong (PState.tier, cur) (trim ((str "        xmin = " ++ numToStr q) ++ str " "))
      = some (PState.tier, { cur with tiers := xs ++ [{ T with tmin := q }] }) := by
  show stepLong (PState.tier, cur)
      (trim ((str "        " ++ ((str "xmin" ++ [' ']) ++ '=' :: ' ' :: numToStr q))
        ++ str " ")) = _
  rw [trim_kv_line (str "        ") (str "xmin") (numToStr q) (by decide) (by decide)
    (by intro c hc; cases hc; decide) (numToStr_ne_nil q)
    (last_nws_of_all _ (numToStr_all_nws q))]
  rw [stepLong_kv_tier cur _ (notMarker_kv _ _ (by decide) (by decide) (by decide)
    (by decide) (by decide) (by decide) (by decide) (by decide))]
  rw [withLastTier_concat cur xs T _ hT]
  rw [parse_tier_kv_xmin (numToStr q) T (numToStr_ne_nil q)
    (head_nws_of_all _ (numToStr_all_nws q)) (last_nws_of_all _ (numToStr_all_nws q))]
  rw [parse_float_numToStr]
  rfl

theorem step_tier_xmax (cur : TextGrid) (xs : List Tier) (T : Tier) (q : ℚ)
    (hT : cur.tiers = xs ++ [T]) :
    stepLong (PState.tier, cur) (trim ((str "        xmax = " ++ numToStr q) ++ str " "))
      = some (PState.tier, { cur with tiers := xs ++ [{ T with tmax := q }] }) := by
  show stepLong (PState.tier, cur)
      (trim ((str "        " ++ ((str "xmax" ++ [' ']) ++ '=' :: ' ' :: numToStr q))
        ++ str " ")) = _
  rw [trim_kv_line (str "        ") (str "xmax") (numToStr q) (by decide) (by decide)
    (by intro c hc; cases hc; decide) (numToStr_ne_nil q)
    (last_nws_of_all _ (numToStr_all_nws q))]
  rw [stepLong_kv_tier cur _ (notMarker_kv _ _ (by decide) (by decide) (by decide)
    (by decide) (by decide) (by decide) (by decide) (by decide))]
  rw [withLastTier_concat cur xs T _ hT]
  rw [parse_tier_kv_xmax (numToStr q) T (numToStr_ne_nil q)
    (head_nws_of_all _ (numToStr_all_nws q)) (last_nws_of_all _ (numToStr_all_nws q))]
  rw [parse_float_numToStr]
  rfl

theorem step_tier_size (cur : TextGrid) (xs : List Tier) (T : Tier) (b : Bool) (n : ℕ)
    (hT : cur.tiers = xs ++ [T]) :
    stepLong (PState.tier, cur)
        (trim ((((str "        " ++ (if b then str "intervals" else str "points"))
          ++ str ": size = ") ++ natToStr n) ++ str " "))
      = some (PState.tier, { cur with tiers := xs ++ [{ T with size := n }] }) := by
  cases b
  · show stepLong (PState.tier, cur)
        (trim ((str "        " ++ ((str "points: size" ++ [' ']) ++ '=' :: ' ' :: natToStr n))
          ++ str " ")) = _
    rw [trim_kv_line (str "        ") (str "points: size") (natToStr n) (by decide)
      (by decide) (by intro c hc; cases hc; decide) (natToStr_ne_nil n)
      (last_nws_of_all _ (natToStr_all_nws n))]
    rw [stepLong_kv_tier cur _ (notMarker_kv _ _ (by decide) (by decide) (by decide)
      (by decide) (by decide) (by decide) (by decide) (by decide))]
    rw [withLastTier_concat cur xs T _ hT]
    rw [parse_tier_kv_psize (natToStr n) T (natToStr_ne_nil n)
      (head_nws_of_all _ (natToStr_all_nws n)) (last_nws_of_all _ (natToStr_all_nws n))]
    rw [parse_uint_natToStr]
    rfl
  · show stepLong (PState.tier, cur)
        (trim ((str "        "
          ++ ((str "intervals: size" ++ [' ']) ++ '=' :: ' ' :: natToStr n)) ++ str " ")) = _
    rw [trim_kv_line (str "        ") (str "intervals: size") (natToStr n) (by decide)
      (by decide) (by intro c hc; cases hc; decide) (natToStr_ne_nil n)
      (last_nws_of_all _ (natToStr_all_nws n))]
    rw [stepLong_kv_tier cur _ (notMarker_kv _ _ (by decide) (by decide) (by decide)
      (by decide) (by decide) (by decide) (by decide) (by decide))]
    rw [withLastTier_concat cur xs T _ hT]
    rw [parse_tier_kv_isize (natToStr n) T (natToStr_ne_nil n)
      (head_nws_of_all _ (natToStr_all_nws n)) (last_nws_of_all _ (natToStr_all_nws n))]
    rw [parse_uint_natToStr]
    rfl

theorem step_item_xmin (cur : TextGrid) (xs : List Tier) (T : Tier) (ys : List Item)
    (it : Item) (q : ℚ) (hT : cur.tiers = xs ++ [T]) (hI : T.items = ys ++ [it]) :
    stepLong (PState.item, cur)
        (trim ((str "            xmin = " ++ numToStr q) ++ str " "))
      = some (PState.item,
          { cur with tiers := xs ++ [{ T with items := ys ++ [{ it with tmin := q }] }] }) := by
  show stepLong (PState.item, cur)
      (trim ((str "            " ++ ((str "xmin" ++ [' ']) ++ '=' :: ' ' :: numToStr q))
        ++ str " ")) = _
  rw [trim_kv_line (str "            ") (str "xmin") (numToStr q) (by decide) (by decide)
    (by intro c hc; cases hc; decide) (numToStr_ne_nil q)
    (last_nws_of_all _ (numToStr_all_nws q))]
  rw [stepLong_kv_item cur _ (notMarker_kv _ _ (by decide) (by decide) (by decide)
    (by decide) (by decide) (by decide) (by decide) (by decide))]
  rw [withLastItemOfLastTier_concat cur xs T ys it _ hT hI]
  rw [parse_item_kv_xmin (numToStr q) it (numToStr_ne_nil q)
    (head_nws_of_all _ (numToStr_all_nws q)) (last_nws_of_all _ (numToStr_all_nws q))]
  rw [parse_float_numToStr]
  rfl

theorem step_item_xmax (cur : TextGrid) (xs : List Tier) (T : Tier) (ys : List Item)
    (it : Item) (q : ℚ) (hT : cur.tiers = xs ++ [T]) (hI : T.items = ys ++ [it]) :
    stepLong (PState.item, cur)
        (trim ((str "            xmax = " ++ numToStr q) ++ str " "))
      = some (PState.item,
          { cur with tiers := xs ++ [{ T with items := ys ++ [{ it with tmax := q }] }] }) := by
  show stepLong (PState.item, cur)
      (trim ((str "            " ++ ((str "xmax" ++ [' ']) ++ '=' :: ' ' :: numToStr q))
        ++ str " ")) = _
  rw [trim_kv_line (str "            ") (str "xmax") (numToStr q) (by decide) (by decide)
    (by intro c hc; cases hc; decide) (numToStr_ne_nil q)
    (last_nws_of_all _ (numToStr_all_nws q))]
  rw [stepLong_kv_item cur _ (notMarker_kv _ _ (by decide) (by decide) (by decide)
    (by decide) (by decide) (by decide) (by decide) (by decide))]
  rw [withLastItemOfLastTier_concat cur xs T ys it _ hT hI]
  rw [parse_item_kv_xmax (numToStr q) it (numToStr_ne_nil q)
    (head_nws_of_all _ (numToStr_all_nws q)) (last_nws_of_all _ (numToStr_all_nws q))]
  rw [parse_float_numToStr]
  rfl

theorem step_item_text (cur : TextGrid) (xs : List Tier) (T : Tier) (ys : List Item)
    (it : Item) (s : Str) (hT : cur.tiers = xs ++ [T]) (hI : T.items = ys ++ [it])
    (hs : ∀ c ∈ s, c ≠ '"') :
    stepLong (PState.item, cur)
        (trim ((str "            text = \"" ++ escapeQuotes s) ++ str "\" "))
      = some (PState.item,
          { cur with tiers := xs ++ [{ T with items := ys ++ [{ it with label := s }] }] }) := by
  rw [escapeQuotes_of_clean s hs]
  have hline : (str "            text = \"" ++ s) ++ str "\" "
      = (str "            "
          ++ ((str "text" ++ [' ']) ++ '=' :: ' ' :: (('"' :: s) ++ ['"']))) ++ str " " :=
    (List.append_assoc (str "            text = \"") s (str "\" ")).trans
      (congrArg (fun z => str "            text = \"" ++ z)
        (List.append_assoc s ['"'] [' ']).symm)
  rw [hline, trim_kv_line (str "            ") (str "text") (('"' :: s) ++ ['"'])
    (by decide) (by decide) (by intro c hc; cases hc; decide)
    (quoted_ne_nil s) (quoted_last_nws s)]
  rw [stepLong_kv_item cur _ (notMarker_kv _ _ (by decide) (by decide) (by decide)
    (by decide) (by decide) (by decide) (by decide) (by decide))]
  rw [withLastItemOfLastTier_concat cur xs T ys it _ hT hI]
  rw [parse_item_kv_text s it hs]
  rfl

theorem step_item_number (cur : TextGrid) (xs : List Tier) (T : Tier) (ys : List Item)
    (it : Item) (q : ℚ) (hT : cur.tiers = xs ++ [T]) (hI : T.items = ys ++ [it]) :
    stepLong (PState.item, cur)
        (trim ((str "            number = " ++ numToStr q) ++ str " "))
      = some (PState.item,
          { cur with tiers :=
              xs ++ [{ T with items := ys ++ [{ it with tmin := q, tmax := q }] }] }) := by
  show stepLong (PState.item, cur)
      (trim ((str "            " ++ ((str "number" ++ [' ']) ++ '=' :: ' ' :: numToStr q))
        ++ str " ")) = _
  rw [trim_kv_line (str "            ") (str "number") (numToStr q) (by decide) (by decide)
    (by intro c hc; cases hc; decide) (numToStr_ne_nil q)
    (last_nws_of_all _ (numToStr_all_nws q))]
  rw [stepLong_kv_item cur _ (notMarker_kv _ _ (by decide) (by decide) (by decide)
    (by decide) (by decide) (by decide) (by decide) (by decide))]
  rw [withLastItemOfLastTier_concat cur xs T ys it _ hT hI]
  rw [parse_item_kv_number (numToStr q) it (numToStr_ne_nil q)
    (head_nws_of_all _ (numToStr_all_nws q)) (last_nws_of_all _ (numToStr_all_nws q))]
  rw [parse_float_numToStr]
  rfl

theorem step_item_mark (cur : TextGrid) (xs : List Tier) (T : Tier) (ys : List Item)
    (it : Item) (s : Str) (hT : cur.tiers = xs ++ [T]) (hI : T.items = ys ++ [it])
    (hs : ∀ c ∈ s, c ≠ '"') :
    stepLong (PState.item, cur)
        (trim ((str "            mark = \"" ++ escapeQuotes s) ++ str "\" "))
      = some (PState.item,
          { cur with tiers := xs ++ [{ T with items := ys ++ [{ it with label := s }] }] }) := by
  rw [escapeQuotes_of_clean s hs]
  have hline : (str "            mark = \"" ++ s) ++ str "\" "
      = (str "            "
          ++ ((str "mark" ++ [' ']) ++ '=' :: ' ' :: (('"' :: s) ++ ['"']))) ++ str " " :=
    (List.append_assoc (str "            mark = \"") s (str "\" ")).trans
      (congrArg (fun z => str "            mark = \"" ++ z)
        (List.append_assoc s ['"'] [' ']).symm)
  rw [hline, trim_kv_line (str "            ") (str "mark") (('"' :: s) ++ ['"'])
    (by decide) (by decide) (by intro c hc; cases hc; decide)
    (quoted_ne_nil s) (quoted_last_nws s)]
  rw [stepLong_kv_item cur _ (notMarker_kv _ _ (by decide) (by decide) (by decide)
    (by decide) (by decide) (by decide) (by decide) (by decide))]
  rw [withLastItemOfLastTier_concat cur xs T ys it _ hT hI]
  rw [parse_item_kv_mark s it hs]
  rfl

theorem run_item_block (S : PState) (cur : TextGrid) (xs : List Tier) (T : Tier)
    (interval : Bool) (k : ℕ) (it : Item) (hT : cur.tiers = xs ++ [T])
    (hs : ∀ c ∈ it.label, c ≠ '"') :
    ((itemLines interval k it).map trim).foldlM stepLong (S, cur)
      = some (PState.item,
          { cur with tiers :=
              xs ++ [{ T with items := T.items ++ [reconItem interval it] }] }) := by
  cases interval
  · refine (foldlM_cons_some _ _ _ _ _ (step_points_marker S cur xs T k hT)).trans ?_
    refine (foldlM_cons_some _ _ _ _ _
      (step_item_number _ xs _ T.items Item.new it.tmin rfl rfl)).trans ?_
    refine (foldlM_cons_some _ _ _ _ _
      (step_item_mark _ xs _ T.items _ it.label rfl rfl hs)).trans ?_
    exact rfl
  · refine (foldlM_cons_some _ _ _ _ _ (step_interval_marker S cur xs T k hT)).trans ?_
    refine (foldlM_cons_some _ _ _ _ _
      (step_item_xmin _ xs _ T.items Item.new it.tmin rfl rfl)).trans ?_
    refine (foldlM_cons_some _ _ _ _ _
      (step_item_xmax _ xs _ T.items _ it.tmax rfl rfl)).trans ?_
    refine (foldlM_cons_some _ _ _ _ _
      (step_item_text _ xs _ T.items _ it.label rfl rfl hs)).trans ?_
    exact rfl

theorem run_items (interval : Bool) (items : List Item) (k : ℕ) (S : PState)
    (cur : TextGrid) (xs : List Tier) (T : Tier) (hT : cur.tiers = xs ++ [T])
    (hs : ∀ it ∈ items, ∀ c ∈ it.label, c ≠ '"') :
    ∃ S2, (((items.enumFrom k).map (fun p => itemLines interval p.1 p.2)).flatten.map
        trim).foldlM stepLong (S, cur)
      = some (S2, { cur with tiers :=
          xs ++ [{ T with items := T.items ++ items.map (reconItem interval) }] }) := by
  induction items generalizing k S cur T with
  | nil =>
    refine ⟨S, ?_⟩
    rw [show List.map (reconItem interval) ([] : List Item) = [] from rfl,
      List.append_nil, ← hT]
    rfl
  | cons it rest ih =>
    have hstep := run_item_block S cur xs T interval k it hT (hs it (by simp))
    obtain ⟨S2, hrest⟩ := ih k.succ PState.item
      { cur with tiers := xs ++ [{ T with items := T.items ++ [reconItem interval it] }] }
      { T with items := T.items ++ [reconItem interval it] } rfl
      (fun it2 h2 => hs it2 (by simp [h2]))
    refine ⟨S2, ?_⟩
    rw [show ((List.enumFrom k (it :: rest)).map
          (fun p => itemLines interval p.1 p.2)).flatten
        = itemLines interval k it
          ++ ((List.enumFrom k.succ rest).map
            (fun p => itemLines interval p.1 p.2)).flatten from rfl,
      List.map_append]
    refine (foldlM_append_some _ _ _ _ _ hstep).trans ?_
    have hlist : (T.items ++ [reconItem interval it]) ++ rest.map (reconItem interval)
        = T.items ++ (it :: rest).map (reconItem interval) := by
      rw [List.map_cons, List.append_assoc]
      rfl
    exact hlist ▸ hrest

theorem run_tier_block (S : PState) (cur : TextGrid) (t : Tier) (i : ℕ)
    (hname : ∀ c ∈ t.name, c ≠ '"')
    (hlabels : ∀ it ∈ t.items, ∀ c ∈ it.label, c ≠ '"') :
    ∃ S2, ((tierLines t i).map trim).foldlM stepLong (S, cur)
      = some (S2, { cur with tiers := cur.tiers ++ [reconTier t] }) := by
  obtain ⟨S2, hrun⟩ := run_items t.interval_tier t.items 0 PState.tier
    { cur with tiers := cur.tiers ++ [tierStage t] } cur.tiers (tierStage t) rfl hlabels
  refine ⟨S2, ?_⟩
  refine (foldlM_cons_some _ _ _ _ _ (step_tier_marker S cur i)).trans ?_
  refine (foldlM_cons_some _ _ _ _ _
    (step_tier_class _ cur.tiers Tier.new t.interval_tier rfl)).trans ?_
  refine (foldlM_cons_some _ _ _ _ _
    (step_tier_name _ cur.tiers _ t.name rfl hname)).trans ?_
  refine (foldlM_cons_some _ _ _ _ _
    (step_tier_xmin _ cur.tiers _ t.tmin rfl)).trans ?_
  refine (foldlM_cons_some _ _ _ _ _
    (step_tier_xmax _ cur.tiers _ t.tmax rfl)).trans ?_
  refine (foldlM_cons_some _ _ _ _ _
    (step_tier_size _ cur.tiers _ t.interval_tier t.items.length rfl)).trans ?_
  exact hrun

theorem run_tiers (tiers : List Tier) (k : ℕ) (S : PState) (cur : TextGrid)
    (hclean : ∀ t ∈ tiers,
      (∀ c ∈ t.name, c ≠ '"') ∧ ∀ it ∈ t.items, ∀ c ∈ it.label, c ≠ '"') :
    ∃ S2, (((tiers.enumFrom k).map (fun p => tierLines p.2 p.1)).flatten.map
        trim).foldlM stepLong (S, cur)
      = some (S2, { cur with tiers := cur.tiers ++ tiers.map reconTier }) := by
  induction tiers generalizing k S cur with
  | nil =>
    refine ⟨S, ?_⟩
    rw [show List.map reconTier ([] : List Tier) = [] from rfl, List.append_nil]
    rfl
  | cons t rest ih =>
    obtain ⟨S1, h1⟩ := run_tier_block S cur t k (hclean t (by simp)).1
      (hclean t (by simp)).2
    obtain ⟨S2, h2⟩ := ih k.succ S1 { cur with tiers := cur.tiers ++ [reconTier t] }
      (fun t2 ht2 => hclean t2 (by simp [ht2]))
    refine ⟨S2, ?_⟩
    rw [show ((List.enumFrom k (t :: rest)).map (fun p => tierLines p.2 p.1)).flatten
        = tierLines t k
          ++ ((List.enumFrom k.succ rest).map (fun p => tierLines p.2 p.1)).flatten
        from rfl, List.map_append]
    refine (foldlM_append_some _ _ _ _ _ h1).trans ?_
    have hlist : (cur.tiers ++ [reconTier t]) ++ rest.map reconTier
        = cur.tiers ++ (t :: rest).map reconTier := by
      rw [List.map_cons, List.append_assoc]
      rfl
    exact hlist ▸ h2

theorem read_long_lines_serialize (tg : TextGrid) (hclean : tg.cleanStrings) :
    read_long_lines (longLines tg) = some (reconGrid0 tg) := by
  have hclean2 : ∀ t ∈ tg.tiers,
      (∀ c ∈ t.name, c ≠ '"') ∧ ∀ it ∈ t.items, ∀ c ∈ it.label, c ≠ '"' := by
    intro t ht
    exact ⟨fun c hc => ((hclean t ht).1 c hc).1,
      fun it hit c hc => ((hclean t ht).2 it hit c hc).1⟩
  obtain ⟨S2, hrun⟩ := run_tiers tg.tiers 0 PState.tierList
    { TextGrid.new with tmin := tg.tmin, tmax := tg.tmax, size := tg.tiers.length }
    hclean2
  have hfold : ((longLines tg).map trim).foldlM stepLong (PState.header, TextGrid.new)
      = some (S2, reconGrid0 tg) := by
    refine (foldlM_cons_some _ _ _ _ _ (step_header_filetype TextGrid.new)).trans ?_
    refine (foldlM_cons_some _ _ _ _ _ (step_header_objclass _)).trans ?_
    refine (foldlM_cons_some _ _ _ _ _ (step_header_blank _)).trans ?_
    refine (foldlM_cons_some _ _ _ _ _ (step_header_xmin _ tg.tmin)).trans ?_
    refine (foldlM_cons_some _ _ _ _ _ (step_header_xmax _ tg.tmax)).trans ?_
    refine (foldlM_cons_some _ _ _ _ _ (step_header_tiers _ _ (by
      by_cases h : tg.tiers.length > 0
      · exact Or.inl (if_pos h)
      · exact Or.inr (if_neg h)))).trans ?_
    refine (foldlM_cons_some _ _ _ _ _ (step_header_size _ tg.tiers.length)).trans ?_
    refine (foldlM_cons_some _ _ _ _ _ (step_item_list_marker _ _)).trans ?_
    exact hrun
  unfold read_long_lines
  rw [hfold]
  rfl

theorem read_long_roundtrip (tg : TextGrid) (stem : Str) (hclean : tg.cleanStrings) :
    read_from_file_long tg.to_long_textgrid_string stem false
      = some (Except.ok { reconGrid0 tg with name := stem }) := by
  unfold read_from_file_long
  rw [rustLines_serialize tg hclean, read_long_lines_serialize tg hclean]
  rfl

/-- C1 counterexample: `tgQuote` passes validation, but serializing it to the
long format and parsing that text back yields `tgQuoteParsed`, whose item
label `a\"b` differs from the original `a"b`: the writer escapes the quote
and the parser never unescapes it, so the item labels are not preserved. -/
theorem C1_counterexample :
    tgQuote.assert_valid = Except.ok ()
    ∧ read_from_file_long tgQuote.to_long_textgrid_string (str "tgQuote") false
        = some (Except.ok tgQuoteParsed)
    ∧ tgQuoteParsed.tiers.map (fun t => t.items.map (fun it => it.label))
        ≠ tgQuote.tiers.map (fun t => t.items.map (fun it => it.label)) :=
  ⟨by with_unfolding_all decide, by with_unfolding_all decide,
   by with_unfolding_all decide⟩

/-- C1 (amended): for every TextGrid that passes validation and whose tier
names and item labels are free of double quotes, carriage returns and line
feeds, parsing the long serialization back (tolerant mode) succeeds and
yields a TextGrid with the same number of tiers in the same order, the same
tier names and interval/point kinds, the same tier sizes, the same item
labels, identical `tmin`/`tmax` at the TextGrid and tier levels, identical
item `tmin`, and item `tmax` within the `TIME_EPSILON` tolerance (exact for
interval tiers); the parsed TextGrid's own name is the filename stem. -/
theorem C1_amended_theorem (tg : TextGrid) (stem : Str)
    (hclean : tg.cleanStrings) (hvalid : tg.assert_valid = Except.ok ()) :
    ∃ tg2, read_from_file_long tg.to_long_textgrid_string stem false
        = some (Except.ok tg2)
      ∧ tg2.tmin = tg.tmin ∧ tg2.tmax = tg.tmax ∧ tg2.size = tg.size
      ∧ tg2.name = stem
      ∧ List.Forall₂ (fun t t2 =>
          t2.name = t.name ∧ t2.interval_tier = t.interval_tier ∧ t2.size = t.size
          ∧ t2.tmin = t.tmin ∧ t2.tmax = t.tmax
          ∧ List.Forall₂ (fun it it2 =>
              it2.label = it.label ∧ it2.tmin = it.tmin
              ∧ |it2.tmax - it.tmax| ≤ TIME_EPSILON) t.items t2.items)
          tg.tiers tg2.tiers := by
  have hspec := (textgrid_assert_valid_ok_iff tg).mp hvalid
  refine ⟨{ reconGrid0 tg with name := stem }, read_long_roundtrip tg stem hclean,
    rfl, rfl, hspec.1.symm, rfl, ?_⟩
  show List.Forall₂ _ tg.tiers (tg.tiers.map reconTier)
  rw [List.forall₂_map_right_iff, List.forall₂_same]
  intro t ht
  have htspec := hspec.2.2 t ht
  refine ⟨rfl, rfl, htspec.1.symm, rfl, rfl, ?_⟩
  show List.Forall₂ _ t.items (t.items.map (reconItem t.interval_tier))
  rw [List.forall₂_map_right_iff, List.forall₂_same]
  intro it hit
  cases hb : t.interval_tier
  · exact ⟨rfl, rfl, (htspec.2.2.1 it hit).2 hb⟩
  · refine ⟨rfl, rfl, ?_⟩
    show |it.tmax - it.tmax| ≤ TIME_EPSILON
    rw [sub_self, abs_zero]
    unfold TIME_EPSILON
    norm_num

/-- C1 witness: the amended round-trip theorem applied to the concrete clean
valid TextGrid `c1Grid`. -/
theorem C1_witness :
    c1Grid.cleanStrings ∧ c1Grid.assert_valid = Except.ok ()
    ∧ ∃ tg2, read_from_file_long c1Grid.to_long_textgrid_string (str "g") false
          = some (Except.ok tg2)
        ∧ tg2.tmin = c1Grid.tmin ∧ tg2.tmax = c1Grid.tmax ∧ tg2.size = c1Grid.size
        ∧ tg2.name = str "g"
        ∧ List.Forall₂ (fun t t2 =>
            t2.name = t.name ∧ t2.interval_tier = t.interval_tier ∧ t2.size = t.size
            ∧ t2.tmin = t.tmin ∧ t2.tmax = t.tmax
            ∧ List.Forall₂ (fun it it2 =>
                it2.label = it.label ∧ it2.tmin = it.tmin
                ∧ |it2.tmax - it.tmax| ≤ TIME_EPSILON) t.items t2.items)
            c1Grid.tiers tg2.tiers :=
  ⟨by with_unfolding_all decide, by with_unfolding_all decide,
   C1_amended_theorem c1Grid (str "g") (by with_unfolding_all decide)
     (by with_unfolding_all decide)⟩
